import Mathlib

/-!
Verification of the NVMe-oF RDMA transport of SPDK (lib/nvmf/rdma.c).

Shallow embedding notes.

The transport state that the claims are about is embedded as explicit
records: `RdmaConn` mirrors `struct spdk_nvmf_rdma_conn` (plus the
`sq_head` and `sq_head_max` fields of the embedded `struct
spdk_nvmf_conn`), `RdmaSession` mirrors `struct spdk_nvmf_rdma_session`,
`NvmfRequest` mirrors the fields of `struct spdk_nvmf_request` and
`struct spdk_nvmf_rdma_request` that the transport reads and writes.
Request slots are identified by their index into the connection's `reqs`
array; the two pending queues hold slot indices, exactly as the C
TAILQs hold pointers into the `reqs` array.  The session's
`data_buf_pool` SLIST is a list of chunk identifiers.

The ibverbs layer is the environment: work requests posted by
`ibv_post_send` and `ibv_post_recv` are recorded in an event log
(`posts`), and work completions harvested by `ibv_poll_cq` are an input
list.  `ibv_post_send` and `ibv_post_recv` are modelled as succeeding
(returning 0); their failure branches in the C only propagate the error
code and are fatal to the connection.  `spdk_nvmf_request_exec` is the
external backend: its return values are an oracle list `execResults`,
and every call made is recorded in `execTrace`.

`cur_queue_depth`, `cur_rdma_rw_depth`, `max_queue_depth` and
`max_rw_depth` are declared `uint16_t` in rdma.c, so their increments
and decrements are modelled modulo 2^16 (`incr16`, `decr16`).  The
numeric constants for SGL descriptor types and NVMe status codes come
from include/spdk/nvme_spec.h, which is not part of src/; their exact
values are irrelevant to the claims (only their distinctness matters).
-/

/-- NVMe SGL descriptor type: plain data block, per nvme_spec.h. -/
def SPDK_NVME_SGL_TYPE_DATA_BLOCK : Nat := 0x00

/-- NVMe SGL descriptor type: keyed data block, per nvme_spec.h. -/
def SPDK_NVME_SGL_TYPE_KEYED_DATA_BLOCK : Nat := 0x04

/-- NVMe SGL descriptor subtype: address, per nvme_spec.h. -/
def SPDK_NVME_SGL_SUBTYPE_ADDRESS : Nat := 0x00

/-- NVMe SGL descriptor subtype: offset, per nvme_spec.h. -/
def SPDK_NVME_SGL_SUBTYPE_OFFSET : Nat := 0x01

/-- NVMe SGL descriptor subtype: invalidate key, per nvme_spec.h. -/
def SPDK_NVME_SGL_SUBTYPE_INVALIDATE_KEY : Nat := 0x0f

/-- The NVMe over Fabrics command opcode, per nvmf_spec.h. -/
def SPDK_NVME_OPC_FABRIC : Nat := 0x7f

/-- NVMe status code: success. -/
def SPDK_NVME_SC_SUCCESS : Nat := 0x00

/-- NVMe status code: internal device error. -/
def SPDK_NVME_SC_INTERNAL_DEVICE_ERROR : Nat := 0x06

/-- NVMe status code: data SGL length invalid. -/
def SPDK_NVME_SC_DATA_SGL_LENGTH_INVALID : Nat := 0x0f

/-- NVMe status code: SGL descriptor type invalid. -/
def SPDK_NVME_SC_SGL_DESCRIPTOR_TYPE_INVALID : Nat := 0x11

/-- NVMe status code: invalid SGL offset. -/
def SPDK_NVME_SC_INVALID_SGL_OFFSET : Nat := 0x16

/-- The four NVMe data transfer directions, mirroring
enum spdk_nvme_data_transfer (values 0..3 of the opcode's low two bits). -/
inductive Xfer
  | dataNone
  | hostToController
  | controllerToHost
  | bidirectional
deriving DecidableEq, Inhabited, Repr

/-- Modelled from the spec: spdk_nvme_opc_get_data_transfer lives in
include/spdk/nvme_spec.h, which is not under src/.  Per the NVMe
specification the transfer direction is the low two bits of the opcode
(the spec says the opcode implies the transfer direction). -/
def spdk_nvme_opc_get_data_transfer (opc : Nat) : Xfer :=
  match opc % 4 with
  | 0 => Xfer.dataNone
  | 1 => Xfer.hostToController
  | 2 => Xfer.controllerToHost
  | _ => Xfer.bidirectional

/-- One NVMe SGL descriptor (cmd->dptr.sgl1).  The C type is a union:
`keyedLength` is the keyed data block length field, `unkeyedLength` the
unkeyed one; the transport reads whichever matches the descriptor type. -/
structure SglDescriptor where
  gtype : Nat
  subtype : Nat
  address : Nat
  keyedLength : Nat
  keyedKey : Nat
  unkeyedLength : Nat
deriving DecidableEq, Inhabited, Repr

/-- The fields of the received command capsule that the transport reads. -/
structure NvmeCmd where
  opc : Nat
  fctype : Nat
  sgl1 : SglDescriptor
deriving DecidableEq, Inhabited, Repr

/-- What req->data points at: the slot's in-capsule buffer (at a byte
offset) or a chunk borrowed from the session's large-buffer pool. -/
inductive DataPtr
  | inCapsule (slot : Nat) (offset : Nat)
  | chunk (id : Nat)
deriving DecidableEq, Inhabited, Repr

/-- One request slot: the transport-visible fields of
struct spdk_nvmf_request together with the rdma request's slot identity.
`rspSc` and `rspSqhd` are the status code and sq-head fields of the
completion capsule rsp->nvme_cpl. -/
structure NvmfRequest where
  slot : Nat
  cmd : NvmeCmd
  xfer : Xfer := Xfer.dataNone
  data : Option DataPtr := Option.none
  length : Nat := 0
  rspSc : Nat := 0
  rspSqhd : Nat := 0
deriving DecidableEq, Inhabited, Repr

/-- struct spdk_nvmf_rdma_session: the large-buffer free stack and the
lkey of its registered memory region. -/
structure RdmaSession where
  data_buf_pool : List Nat
  buf_lkey : Nat
deriving DecidableEq, Inhabited, Repr

/-- struct spdk_nvmf_rdma_conn plus the sq_head fields of the embedded
struct spdk_nvmf_conn.  The pending queues hold slot indices into
`reqs`.  `sess` is None until a session is established. -/
structure RdmaConn where
  max_queue_depth : Nat
  max_rw_depth : Nat
  cur_queue_depth : Nat
  cur_rdma_rw_depth : Nat
  sq_head : Nat
  sq_head_max : Nat
  pending_data_buf_queue : List Nat
  pending_rdma_rw_queue : List Nat
  reqs : List NvmfRequest
  bufs_lkey : Nat
  sess : Option RdmaSession
deriving DecidableEq, Inhabited, Repr

/-- The negotiated defaults held in the global struct spdk_nvmf_rdma. -/
structure RdmaGlobals where
  max_queue_depth : Nat
  max_io_size : Nat
  in_capsule_data_size : Nat
deriving DecidableEq, Inhabited, Repr

/-- Work requests posted to the ibverbs layer, as recorded by the model.
The RDMA READ and WRITE events record the single SGE's lkey and length,
and the remote key and address taken from the keyed SGL. -/
inductive PostEvent
  | recv (slot : Nat)
  | send (slot : Nat)
  | rdmaWrite (slot : Nat) (lkey : Nat) (rkey : Nat) (remoteAddr : Nat) (length : Nat) (numSge : Nat)
  | rdmaRead (slot : Nat) (lkey : Nat) (rkey : Nat) (remoteAddr : Nat) (length : Nat) (numSge : Nat)
deriving DecidableEq, Inhabited, Repr

/-- The whole transport state a poll call operates on: the connection,
the log of posted work requests, the trace of backend invocations made
so far, and the oracle of future backend return values. -/
structure TState where
  conn : RdmaConn
  posts : List PostEvent
  execTrace : List Int
  execResults : List Int
deriving DecidableEq, Inhabited, Repr

/-- uint16_t increment, as performed on the two depth counters. -/
def incr16 (n : Nat) : Nat := (n + 1) % 65536

/-- uint16_t decrement, as performed on the two depth counters. -/
def decr16 (n : Nat) : Nat := (n + 65535) % 65536

/-- Read a request slot (wr_id dereference). -/
def getReq (st : TState) (slot : Nat) : NvmfRequest :=
  st.conn.reqs.getD slot default

/-- Write a request slot back. -/
def setReq (st : TState) (slot : Nat) (req : NvmfRequest) : TState :=
  { st with conn := { st.conn with reqs := st.conn.reqs.set slot req } }

/-- The session's free stack, empty when no session is bound. -/
def sessPool (conn : RdmaConn) : List Nat :=
  match conn.sess with
  | some s => s.data_buf_pool
  | Option.none => []

/-- Replace the session's free stack (no-op when no session is bound). -/
def setSessPool (conn : RdmaConn) (p : List Nat) : RdmaConn :=
  match conn.sess with
  | some s => { conn with sess := some { s with data_buf_pool := p } }
  | Option.none => conn

/-- The lkey of the session's large-buffer memory region
(rdma_sess->buf_mr->lkey; the C dereferences conn->sess->trctx, which
requires a bound session). -/
def sess_buf_lkey (conn : RdmaConn) : Nat :=
  match conn.sess with
  | some s => s.buf_lkey
  | Option.none => 0

/-- The four return values of spdk_nvmf_request_prep_data. -/
inductive PrepResult
  | error
  | ready
  | pendingBuffer
  | pendingData
deriving DecidableEq, Inhabited, Repr

/-- Result of prep: the return value, the updated request, and the
updated session free stack. -/
structure PrepOutcome where
  result : PrepResult
  req : NvmfRequest
  pool : List Nat
deriving DecidableEq, Inhabited, Repr

/-- The transfer direction prep derives from the command: for a fabrics
command the fctype decides, otherwise the NVMe opcode does
(rdma.c lines 817-821). -/
def prepComputedXfer (req : NvmfRequest) : Xfer :=
  if req.cmd.opc = SPDK_NVME_OPC_FABRIC then
    spdk_nvme_opc_get_data_transfer req.cmd.fctype
  else
    spdk_nvme_opc_get_data_transfer req.cmd.opc

/-- spdk_nvmf_request_prep_data (rdma.c lines 805-905), translated
branch for branch.  The session free stack is passed in and returned
because the large-buffer branch pops it. -/
def spdk_nvmf_request_prep_data (g : RdmaGlobals) (pool : List Nat)
    (req0 : NvmfRequest) : PrepOutcome :=
  let req1 : NvmfRequest := { req0 with length := 0, data := Option.none }
  let req : NvmfRequest := { req1 with xfer := prepComputedXfer req1 }
  if req.xfer = Xfer.dataNone then
    ⟨PrepResult.ready, req, pool⟩
  else
    let sgl := req.cmd.sgl1
    if sgl.gtype = SPDK_NVME_SGL_TYPE_KEYED_DATA_BLOCK ∧
       (sgl.subtype = SPDK_NVME_SGL_SUBTYPE_ADDRESS ∨
        sgl.subtype = SPDK_NVME_SGL_SUBTYPE_INVALIDATE_KEY) then
      if sgl.keyedLength > g.max_io_size then
        ⟨PrepResult.error,
         { req with rspSc := SPDK_NVME_SC_DATA_SGL_LENGTH_INVALID }, pool⟩
      else if sgl.keyedLength = 0 then
        ⟨PrepResult.ready, { req with xfer := Xfer.dataNone }, pool⟩
      else
        let req2 : NvmfRequest := { req with length := sgl.keyedLength }
        if sgl.keyedLength > g.in_capsule_data_size then
          match pool with
          | [] =>
            ⟨PrepResult.pendingBuffer, req2, pool⟩
          | c :: rest =>
            let req3 : NvmfRequest := { req2 with data := some (DataPtr.chunk c) }
            if req3.xfer = Xfer.hostToController then
              ⟨PrepResult.pendingData, req3, rest⟩
            else
              ⟨PrepResult.ready, req3, rest⟩
        else
          let req3 : NvmfRequest :=
            { req2 with data := some (DataPtr.inCapsule req2.slot 0) }
          if req3.xfer = Xfer.hostToController then
            ⟨PrepResult.pendingData, req3, pool⟩
          else
            ⟨PrepResult.ready, req3, pool⟩
    else if sgl.gtype = SPDK_NVME_SGL_TYPE_DATA_BLOCK ∧
            sgl.subtype = SPDK_NVME_SGL_SUBTYPE_OFFSET then
      let offset := sgl.address
      let max_len := g.in_capsule_data_size
      if offset > max_len then
        ⟨PrepResult.error, { req with rspSc := SPDK_NVME_SC_INVALID_SGL_OFFSET }, pool⟩
      else
        let max_len2 := max_len - offset
        if sgl.unkeyedLength > max_len2 then
          ⟨PrepResult.error,
           { req with rspSc := SPDK_NVME_SC_DATA_SGL_LENGTH_INVALID }, pool⟩
        else if sgl.unkeyedLength = 0 then
          ⟨PrepResult.ready, { req with xfer := Xfer.dataNone }, pool⟩
        else
          ⟨PrepResult.ready,
           { req with data := some (DataPtr.inCapsule req.slot offset),
                      length := sgl.unkeyedLength }, pool⟩
    else
      ⟨PrepResult.error,
       { req with rspSc := SPDK_NVME_SC_SGL_DESCRIPTOR_TYPE_INVALID }, pool⟩

/-- The device attributes read by nvmf_rdma_connect from
ibv_query_device. -/
structure IbvDeviceAttr where
  max_qp_wr : Nat
  max_qp_rd_atom : Nat
deriving DecidableEq, Inhabited, Repr

/-- struct spdk_nvmf_rdma_request_private_data: the host-requested
receive and send queue sizes. -/
structure RdmaRequestPrivateData where
  hrqsize : Nat
  hsqsize : Nat
deriving DecidableEq, Inhabited, Repr

/-- The connect-request parameters read from event->param.conn. -/
structure RdmaConnParam where
  initiator_depth : Nat
  responder_resources : Nat
  private_data : Option RdmaRequestPrivateData
  private_data_len : Nat
deriving DecidableEq, Inhabited, Repr

/-- Modelled from the spec: nvmf_min is defined in nvmf_internal.h,
which is not under src/; the spec and every call site use it as the
binary minimum. -/
def nvmf_min (a b : Nat) : Nat := min a b

/-- sizeof(struct spdk_nvmf_rdma_request_private_data) per nvmf_spec.h
(recfmt, qid, hrqsize, hsqsize plus 24 reserved bytes). -/
def sizeof_spdk_nvmf_rdma_request_private_data : Nat := 32

/-- The queue-depth negotiation of nvmf_rdma_connect (rdma.c lines
640-684), for a connect event whose local device query succeeded:
returns the pair (max_queue_depth, max_rw_depth) handed to
spdk_nvmf_rdma_conn_create. -/
def nvmf_rdma_connect_negotiate (g : RdmaGlobals) (attr : IbvDeviceAttr)
    (param : RdmaConnParam) : Nat × Nat :=
  let max_queue_depth := g.max_queue_depth
  let max_rw_depth := g.max_queue_depth
  let max_queue_depth := nvmf_min max_queue_depth attr.max_qp_wr
  let max_rw_depth := nvmf_min max_rw_depth attr.max_qp_rd_atom
  let max_rw_depth := nvmf_min max_rw_depth param.initiator_depth
  let max_queue_depth :=
    match param.private_data with
    | some pd =>
      if param.private_data_len ≥ sizeof_spdk_nvmf_rdma_request_private_data then
        nvmf_min (nvmf_min max_queue_depth pd.hrqsize) pd.hsqsize
      else
        max_queue_depth
    | Option.none => max_queue_depth
  (max_queue_depth, max_rw_depth)

/-- The single SGE of an RDMA READ: local address req->data, lkey the
session pool's region when the request borrowed a pool chunk
(req->length greater than the in-capsule data size), otherwise the
connection's in-capsule buffer region (rdma.c lines 347-379); the
remote key and address come from the keyed SGL (nvmf_ibv_send_wr_set_rkey). -/
def nvmf_post_rdma_read (g : RdmaGlobals) (conn : RdmaConn)
    (req : NvmfRequest) : PostEvent :=
  PostEvent.rdmaRead req.slot
    (if req.length > g.in_capsule_data_size then sess_buf_lkey conn else conn.bufs_lkey)
    req.cmd.sgl1.keyedKey req.cmd.sgl1.address req.length 1

/-- The single SGE of an RDMA WRITE (rdma.c lines 381-413), same key
selection as the READ. -/
def nvmf_post_rdma_write (g : RdmaGlobals) (conn : RdmaConn)
    (req : NvmfRequest) : PostEvent :=
  PostEvent.rdmaWrite req.slot
    (if req.length > g.in_capsule_data_size then sess_buf_lkey conn else conn.bufs_lkey)
    req.cmd.sgl1.keyedKey req.cmd.sgl1.address req.length 1

/-- spdk_nvmf_rdma_request_transfer_data (rdma.c lines 497-527): with a
free RW credit, post the WRITE (controller to host) or READ (host to
controller) and take the credit; with no free credit, append the slot to
pending_rdma_rw_queue. -/
def spdk_nvmf_rdma_request_transfer_data (g : RdmaGlobals) (st : TState)
    (slot : Nat) : TState :=
  let conn := st.conn
  let req := conn.reqs.getD slot default
  if conn.cur_rdma_rw_depth < conn.max_rw_depth then
    let posts :=
      if req.xfer = Xfer.controllerToHost then
        st.posts ++ [nvmf_post_rdma_write g conn req]
      else if req.xfer = Xfer.hostToController then
        st.posts ++ [nvmf_post_rdma_read g conn req]
      else
        st.posts
    { st with
      conn := { conn with cur_rdma_rw_depth := incr16 conn.cur_rdma_rw_depth },
      posts := posts }
  else
    { st with
      conn := { conn with
                pending_rdma_rw_queue := conn.pending_rdma_rw_queue ++ [slot] } }

/-- The sq_head advance performed in both send_completion and
ack_completion (rdma.c lines 548-553 and 578-583). -/
def advance_sq_head (conn : RdmaConn) : RdmaConn :=
  if conn.sq_head = conn.sq_head_max then
    { conn with sq_head := 0 }
  else
    { conn with sq_head := conn.sq_head + 1 }

/-- The pool-release step at the head of
spdk_nvmf_rdma_request_send_completion (rdma.c lines 538-546): return a
borrowed pool chunk when the request used one.  The C inserts req->data
into the pool unconditionally in the large-request branch; a request in
that branch holds a pool chunk in every state the program reaches, and
the model only clears the fields in the other (unreachable) shapes. -/
def send_completion_release (g : RdmaGlobals) (conn : RdmaConn)
    (req : NvmfRequest) : RdmaConn × NvmfRequest :=
  if req.length > g.in_capsule_data_size then
    match conn.sess, req.data with
    | some s, some (DataPtr.chunk c) =>
      ({ conn with sess := some { s with data_buf_pool := c :: s.data_buf_pool } },
       { req with data := Option.none, length := 0 })
    | _, _ => (conn, { req with data := Option.none, length := 0 })
  else
    (conn, req)

/-- spdk_nvmf_rdma_request_send_completion (rdma.c lines 529-570),
continued: after the pool-release step, advance sq_head, stamp sqhd
into the completion capsule, re-post the slot RECV and post the
completion SEND. -/
def spdk_nvmf_rdma_request_send_completion (g : RdmaGlobals) (st : TState)
    (slot : Nat) : TState :=
  let conn := st.conn
  let req := conn.reqs.getD slot default
  let rel := send_completion_release g conn req
  let conn2 := advance_sq_head rel.fst
  let req2 : NvmfRequest := { rel.snd with rspSqhd := conn2.sq_head }
  let conn3 := { conn2 with reqs := conn2.reqs.set slot req2 }
  { st with
    conn := conn3,
    posts := st.posts ++ [PostEvent.recv slot, PostEvent.send slot] }

/-- spdk_nvmf_rdma_request_ack_completion (rdma.c lines 572-588):
advance sq_head a second time and give back the queue-depth credit. -/
def spdk_nvmf_rdma_request_ack_completion (st : TState) (slot : Nat) : TState :=
  let conn := advance_sq_head st.conn
  let _ := slot
  { st with conn := { conn with cur_queue_depth := decr16 conn.cur_queue_depth } }

/-- spdk_nvmf_rdma_request_complete (rdma.c lines 590-604): a successful
controller-to-host request first transfers its data, everything else
goes straight to the completion send. -/
def spdk_nvmf_rdma_request_complete (g : RdmaGlobals) (st : TState)
    (slot : Nat) : TState :=
  let req := st.conn.reqs.getD slot default
  if req.rspSc = SPDK_NVME_SC_SUCCESS ∧ req.xfer = Xfer.controllerToHost then
    spdk_nvmf_rdma_request_transfer_data g st slot
  else
    spdk_nvmf_rdma_request_send_completion g st slot

/-- spdk_nvmf_rdma_request_release (rdma.c lines 606-610): skip straight
to the ack step. -/
def spdk_nvmf_rdma_request_release (st : TState) (slot : Nat) : TState :=
  spdk_nvmf_rdma_request_ack_completion st slot

/-- The backend call spdk_nvmf_request_exec: pops the next oracle result
(0, success, when the oracle is exhausted) and records the call. -/
def spdk_nvmf_request_exec (st : TState) : Int × TState :=
  match st.execResults with
  | [] => (0, { st with execTrace := st.execTrace ++ [0] })
  | r :: rest => (r, { st with execResults := rest, execTrace := st.execTrace ++ [r] })

/-- The chunk-assignment walk of spdk_nvmf_rdma_handle_pending_rdma_rw
(rdma.c lines 1208-1229): walk pending_data_buf_queue from the front;
at each slot read the head of the session free stack into req->data,
stop if the stack is empty, otherwise pop both, then route the slot to
pending_rdma_rw_queue (host-to-controller) or to the backend.  A
negative backend result is fatal (None); otherwise the count of backend
calls is returned.  Fuel is the queue length at entry. -/
def handle_pending_buf_loop (g : RdmaGlobals) :
    Nat → TState → Nat → Option Nat × TState
  | 0, st, count => (some count, st)
  | fuel + 1, st, count =>
    match st.conn.pending_data_buf_queue with
    | [] => (some count, st)
    | slot :: qrest =>
      let req := getReq st slot
      match sessPool st.conn with
      | [] =>
        (some count, setReq st slot { req with data := Option.none })
      | c :: pr =>
        let st1 := setReq st slot { req with data := some (DataPtr.chunk c) }
        let st2 := { st1 with conn := setSessPool st1.conn pr }
        let st3 := { st2 with conn := { st2.conn with pending_data_buf_queue := qrest } }
        if req.xfer = Xfer.hostToController then
          handle_pending_buf_loop g fuel
            { st3 with
              conn := { st3.conn with
                        pending_rdma_rw_queue := st3.conn.pending_rdma_rw_queue ++ [slot] } }
            count
        else
          let r := spdk_nvmf_request_exec st3
          if r.fst < 0 then
            (Option.none, r.snd)
          else
            handle_pending_buf_loop g fuel r.snd (count + 1)

/-- The credit-refill loop of spdk_nvmf_rdma_handle_pending_rdma_rw
(rdma.c lines 1231-1246): while an RW credit is free and
pending_rdma_rw_queue is non-empty, pop the head and transfer its data.
Fuel is the queue length at entry; transfer_data consumes the popped
slot under the loop guard, so the queue shrinks each round. -/
def handle_pending_rw_loop (g : RdmaGlobals) : Nat → TState → TState
  | 0, st => st
  | fuel + 1, st =>
    if st.conn.cur_rdma_rw_depth < st.conn.max_rw_depth then
      match st.conn.pending_rdma_rw_queue with
      | [] => st
      | slot :: qrest =>
        let st1 := { st with conn := { st.conn with pending_rdma_rw_queue := qrest } }
        handle_pending_rw_loop g fuel (spdk_nvmf_rdma_request_transfer_data g st1 slot)
    else st

/-- spdk_nvmf_rdma_handle_pending_rdma_rw (rdma.c lines 1199-1249): the
chunk-assignment walk runs only when a session is bound, then the
credit-refill loop runs.  Returns the count of backend calls made, or
None on a fatal backend error, along with the state reached. -/
def spdk_nvmf_rdma_handle_pending_rdma_rw (g : RdmaGlobals) (st : TState) :
    Option Nat × TState :=
  let s1 :=
    if st.conn.sess.isSome then
      handle_pending_buf_loop g st.conn.pending_data_buf_queue.length st 0
    else
      (some 0, st)
  match s1 with
  | (Option.none, st1) => (Option.none, st1)
  | (some count, st1) =>
    (some count, handle_pending_rw_loop g st1.conn.pending_rdma_rw_queue.length st1)

/-- The work-completion opcodes the poller dispatches on. -/
inductive WcOpcode
  | send
  | rdmaWrite
  | rdmaRead
  | recv
  | other
deriving DecidableEq, Inhabited, Repr

/-- One ibv work completion: status, opcode, wr_id (None models a NULL
wr_id) and byte length. -/
structure Wc where
  status : Nat
  opcode : WcOpcode
  wrId : Option Nat
  byte_len : Nat
deriving DecidableEq, Inhabited, Repr

/-- sizeof(struct spdk_nvmf_capsule_cmd) per nvmf_spec.h: a fabrics
command occupies a full 64-byte submission queue entry. -/
def sizeof_spdk_nvmf_capsule_cmd : Nat := 64

/-- The send-CQ phase of spdk_nvmf_rdma_poll (rdma.c lines 1264-1348).
The list is the sequence of work completions ibv_poll_cq yields; a
fatal condition returns -1 with the state reached at that point. -/
def pollSendLoop (g : RdmaGlobals) : List Wc → TState → Nat → Int × TState
  | [], st, count => ((count : Int), st)
  | wc :: rest, st, count =>
    if wc.status ≠ 0 then (-1, st)
    else
      match wc.wrId with
      | Option.none => (-1, st)
      | some slot =>
        match wc.opcode with
        | WcOpcode.send =>
          pollSendLoop g rest (spdk_nvmf_rdma_request_ack_completion st slot) count
        | WcOpcode.rdmaWrite =>
          let st1 := spdk_nvmf_rdma_request_send_completion g st slot
          let st2 := { st1 with
                       conn := { st1.conn with
                                 cur_rdma_rw_depth := decr16 st1.conn.cur_rdma_rw_depth } }
          match spdk_nvmf_rdma_handle_pending_rdma_rw g st2 with
          | (Option.none, st3) => (-1, st3)
          | (some c, st3) => pollSendLoop g rest st3 (count + c)
        | WcOpcode.rdmaRead =>
          let r := spdk_nvmf_request_exec st
          if r.fst ≠ 0 then (-1, r.snd)
          else
            let st2 := { r.snd with
                         conn := { r.snd.conn with
                                   cur_rdma_rw_depth := decr16 r.snd.conn.cur_rdma_rw_depth } }
            match spdk_nvmf_rdma_handle_pending_rdma_rw g st2 with
            | (Option.none, st3) => (-1, st3)
            | (some c, st3) => pollSendLoop g rest st3 (count + 1 + c)
        | WcOpcode.recv => (-1, st)
        | WcOpcode.other => (-1, st)

/-- The recv-CQ phase of spdk_nvmf_rdma_poll (rdma.c lines 1350-1427):
runs while cur_queue_depth is below max_queue_depth; on each RECV it
takes the queue-depth credit, clears the response capsule, preps the
request and dispatches on the prep result.  The PREP_ERROR arm returns
spdk_nvmf_rdma_request_complete's value directly (rdma.c line 1412),
which is 0 here because posting is modelled as succeeding — discarding
the count accumulated so far. -/
def pollRecvLoop (g : RdmaGlobals) : List Wc → TState → Nat → Int × TState
  | [], st, count => ((count : Int), st)
  | wc :: rest, st, count =>
    if ¬ st.conn.cur_queue_depth < st.conn.max_queue_depth then ((count : Int), st)
    else if wc.status ≠ 0 then (-1, st)
    else
      match wc.wrId with
      | Option.none => (-1, st)
      | some slot =>
        match wc.opcode with
        | WcOpcode.recv =>
          if wc.byte_len < sizeof_spdk_nvmf_capsule_cmd then (-1, st)
          else
            let st1 := { st with
                         conn := { st.conn with
                                   cur_queue_depth := incr16 st.conn.cur_queue_depth } }
            let req0 := getReq st1 slot
            let st2 := setReq st1 slot { req0 with rspSc := 0, rspSqhd := 0 }
            let out := spdk_nvmf_request_prep_data g (sessPool st2.conn) (getReq st2 slot)
            let st3 := setReq st2 slot out.req
            let st4 := { st3 with conn := setSessPool st3.conn out.pool }
            match out.result with
            | PrepResult.ready =>
              let r := spdk_nvmf_request_exec st4
              if r.fst < 0 then (-1, r.snd)
              else pollRecvLoop g rest r.snd (count + 1)
            | PrepResult.pendingBuffer =>
              pollRecvLoop g rest
                { st4 with
                  conn := { st4.conn with
                            pending_data_buf_queue := st4.conn.pending_data_buf_queue ++ [slot] } }
                count
            | PrepResult.pendingData =>
              pollRecvLoop g rest (spdk_nvmf_rdma_request_transfer_data g st4 slot) count
            | PrepResult.error =>
              (0, spdk_nvmf_rdma_request_complete g st4 slot)
        | _ => (-1, st)

/-- spdk_nvmf_rdma_poll (rdma.c lines 1254-1430): drain the send CQ,
then the recv CQ.  The inputs are the two work-completion sequences the
completion queues yield during this invocation. -/
def spdk_nvmf_rdma_poll (g : RdmaGlobals) (sendWcs recvWcs : List Wc)
    (st : TState) : Int × TState :=
  let r := pollSendLoop g sendWcs st 0
  if r.fst < 0 then r
  else pollRecvLoop g recvWcs r.snd r.fst.toNat

/-- The sq_head effect of one fully completed request: the
send_completion step followed by the ack_completion step. -/
def rdma_full_completion (g : RdmaGlobals) (slot : Nat) (st : TState) : TState :=
  spdk_nvmf_rdma_request_ack_completion
    (spdk_nvmf_rdma_request_send_completion g st slot) slot

/-- Number of successful backend invocations recorded in a state's
execution trace (a call counts when its result was not negative, the
condition under which the poller continues). -/
def successfulExecs (st : TState) : Nat :=
  st.execTrace.countP (fun r => decide (0 ≤ r))

/-- The two current depths and the two maxima of a connection, used to
state frame facts compactly. -/
def connDepths (conn : RdmaConn) : Nat × Nat × Nat × Nat :=
  (conn.cur_queue_depth, conn.cur_rdma_rw_depth,
   conn.max_queue_depth, conn.max_rw_depth)

/-- The connection depth fields of a transport state. -/
def countersOf (st : TState) : Nat × Nat × Nat × Nat := connDepths st.conn

/-- Both claimed depth invariants of a connection, together with the
uint16 range of the two maxima. -/
def DepthBounds (st : TState) : Prop :=
  st.conn.cur_queue_depth ≤ st.conn.max_queue_depth ∧
  st.conn.cur_rdma_rw_depth ≤ st.conn.max_rw_depth ∧
  st.conn.max_queue_depth < 65536 ∧
  st.conn.max_rw_depth < 65536

/-- Number of SEND completions in a work-completion sequence. -/
def countSendWcs (l : List Wc) : Nat :=
  l.countP (fun wc => decide (wc.opcode = WcOpcode.send))

/-- Number of RDMA READ and WRITE completions in a work-completion
sequence. -/
def countRwWcs (l : List Wc) : Nat :=
  l.countP (fun wc =>
    decide (wc.opcode = WcOpcode.rdmaWrite ∨ wc.opcode = WcOpcode.rdmaRead))

/-- The first drain loop in the words of the spec: while the session
free-stack and pending_data_buf_queue are both non-empty, pop the head
of each, assign the chunk to the request's data pointer, and move the
request to the tail of pending_rdma_rw_queue when its transfer is host
to controller, or pass it to the backend otherwise.  Stated as
structural recursion on the queue. -/
def drainSpecBufLoop (g : RdmaGlobals) : List Nat → TState → Option Nat × TState
  | [], st => (some 0, st)
  | slot :: qrest, st =>
    match sessPool st.conn with
    | [] => (some 0, st)
    | c :: pr =>
      let req := getReq st slot
      let st1 := setReq st slot { req with data := some (DataPtr.chunk c) }
      let st2 := { st1 with conn := setSessPool st1.conn pr }
      let st3 := { st2 with conn := { st2.conn with pending_data_buf_queue := qrest } }
      if req.xfer = Xfer.hostToController then
        drainSpecBufLoop g qrest
          { st3 with
            conn := { st3.conn with
                      pending_rdma_rw_queue := st3.conn.pending_rdma_rw_queue ++ [slot] } }
      else
        let r := spdk_nvmf_request_exec st3
        if r.fst < 0 then (Option.none, r.snd)
        else
          match drainSpecBufLoop g qrest r.snd with
          | (Option.none, st4) => (Option.none, st4)
          | (some k, st4) => (some (k + 1), st4)

/-- The second drain loop in the words of the spec: while
cur_rdma_rw_depth is below max_rw_depth and pending_rdma_rw_queue is
non-empty, pop the head and call transfer_data on it. -/
def drainSpecRwLoop (g : RdmaGlobals) : List Nat → TState → TState
  | [], st => st
  | slot :: qrest, st =>
    if st.conn.cur_rdma_rw_depth < st.conn.max_rw_depth then
      let st1 := { st with conn := { st.conn with pending_rdma_rw_queue := qrest } }
      drainSpecRwLoop g qrest (spdk_nvmf_rdma_request_transfer_data g st1 slot)
    else st

/-- Both drain phases as the spec states them. -/
def drainSpec (g : RdmaGlobals) (st : TState) : Option Nat × TState :=
  match drainSpecBufLoop g st.conn.pending_data_buf_queue st with
  | (Option.none, st1) => (Option.none, st1)
  | (some k, st1) => (some k, drainSpecRwLoop g st1.conn.pending_rdma_rw_queue st1)

/-- A request slot holding the given command, all other fields fresh. -/
def reqAt (i : Nat) (c : NvmeCmd) : NvmfRequest := { slot := i, cmd := c }

/-- Concrete globals used by the concrete evaluations below. -/
def gW : RdmaGlobals :=
  { max_queue_depth := 4, max_io_size := 8192, in_capsule_data_size := 4096 }

/-- A small keyed SGL (address subtype, 100 bytes at remote address 77,
key 13). -/
def sglKeyedSmall : SglDescriptor :=
  { gtype := 4, subtype := 0, address := 77, keyedLength := 100,
    keyedKey := 13, unkeyedLength := 0 }

/-- A large keyed SGL (5000 bytes, above the 4096-byte in-capsule size). -/
def sglKeyedBig : SglDescriptor :=
  { gtype := 4, subtype := 0, address := 500, keyedLength := 5000,
    keyedKey := 31, unkeyedLength := 0 }

/-- A host-to-controller command (opcode 1) with the small keyed SGL. -/
def cmdKeyedH2C : NvmeCmd := { opc := 1, fctype := 0, sgl1 := sglKeyedSmall }

/-- A command whose opcode implies no data transfer (opcode 0). -/
def cmdNoData : NvmeCmd := { opc := 0, fctype := 0, sgl1 := sglKeyedSmall }

/-- A command carrying an SGL descriptor of a reserved type (5). -/
def cmdBadSgl : NvmeCmd :=
  { opc := 1, fctype := 0,
    sgl1 := { gtype := 5, subtype := 0, address := 0, keyedLength := 16,
              keyedKey := 0, unkeyedLength := 16 } }

/-- An in-capsule offset SGL (offset 8, 64 bytes). -/
def cmdOffsetSmall : NvmeCmd :=
  { opc := 1, fctype := 0,
    sgl1 := { gtype := 0, subtype := 1, address := 8, keyedLength := 0,
              keyedKey := 0, unkeyedLength := 64 } }

/-- Connection exhibiting the C2 failing input: two posted slots, slot 0
holding a no-transfer command and slot 1 a command with a reserved SGL
type. -/
def connBug : RdmaConn :=
  { max_queue_depth := 4, max_rw_depth := 4, cur_queue_depth := 0,
    cur_rdma_rw_depth := 0, sq_head := 0, sq_head_max := 3,
    pending_data_buf_queue := [], pending_rdma_rw_queue := [],
    reqs := [reqAt 0 cmdNoData, reqAt 1 cmdBadSgl], bufs_lkey := 7,
    sess := some { data_buf_pool := [], buf_lkey := 9 } }

/-- Transport state for the C2 failing input. -/
def stBug : TState :=
  { conn := connBug, posts := [], execTrace := [], execResults := [0, 0] }

/-- A clean RECV work completion for the given slot (64 bytes). -/
def wcRecvAt (slot : Nat) : Wc :=
  { status := 0, opcode := WcOpcode.recv, wrId := some slot, byte_len := 64 }

/-- A clean SEND work completion for the given slot. -/
def wcSendAt (slot : Nat) : Wc :=
  { status := 0, opcode := WcOpcode.send, wrId := some slot, byte_len := 0 }

/-- A clean RDMA READ work completion for the given slot. -/
def wcReadAt (slot : Nat) : Wc :=
  { status := 0, opcode := WcOpcode.rdmaRead, wrId := some slot, byte_len := 0 }

/-- A request prepared with a bidirectional transfer direction (opcode
3) holding its in-capsule buffer. -/
def reqBidir : NvmfRequest :=
  { slot := 0, cmd := { opc := 3, fctype := 0, sgl1 := sglKeyedSmall },
    xfer := Xfer.bidirectional, data := some (DataPtr.inCapsule 0 0),
    length := 100 }

/-- Connection with one bidirectional request and a free RW credit. -/
def connBidir : RdmaConn :=
  { max_queue_depth := 4, max_rw_depth := 1, cur_queue_depth := 1,
    cur_rdma_rw_depth := 0, sq_head := 0, sq_head_max := 3,
    pending_data_buf_queue := [], pending_rdma_rw_queue := [],
    reqs := [reqBidir], bufs_lkey := 7,
    sess := some { data_buf_pool := [], buf_lkey := 9 } }

/-- Transport state for the C6 counterexample. -/
def stBidir : TState :=
  { conn := connBidir, posts := [], execTrace := [], execResults := [] }

/-- A large host-to-controller request that is waiting for a pool chunk
(on pending_data_buf_queue, data not yet assigned). -/
def reqH2CBig : NvmfRequest :=
  { slot := 0, cmd := { opc := 1, fctype := 0, sgl1 := sglKeyedBig },
    xfer := Xfer.hostToController, data := Option.none, length := 5000 }

/-- A small controller-to-host request holding its in-capsule buffer. -/
def reqC2HSmall : NvmfRequest :=
  { slot := 1, cmd := { opc := 2, fctype := 0, sgl1 := sglKeyedSmall },
    xfer := Xfer.controllerToHost, data := some (DataPtr.inCapsule 1 0),
    length := 100 }

/-- Connection used by several witnesses: slot 0 waits for a buffer,
slot 1 is a small controller-to-host request; one RW credit total, one
pool chunk free. -/
def connW : RdmaConn :=
  { max_queue_depth := 4, max_rw_depth := 1, cur_queue_depth := 2,
    cur_rdma_rw_depth := 0, sq_head := 1, sq_head_max := 3,
    pending_data_buf_queue := [0], pending_rdma_rw_queue := [],
    reqs := [reqH2CBig, reqC2HSmall], bufs_lkey := 7,
    sess := some { data_buf_pool := [21], buf_lkey := 9 } }

/-- Transport state used by several witnesses. -/
def stW : TState :=
  { conn := connW, posts := [], execTrace := [], execResults := [0, 0] }

/-- Writing back the value read from a list leaves the list unchanged. -/
theorem list_set_getD {α : Type} (l : List α) (i : Nat) (d : α) :
    l.set i (l.getD i d) = l := by
  induction l generalizing i with
  | nil => simp
  | cons a t ih =>
    cases i with
    | zero => simp [List.getD]
    | succ n => simpa [List.getD] using ih n

/-- Reading back an in-range write returns the written value. -/
theorem list_getD_set_self {α : Type} (l : List α) (i : Nat) (v d : α)
    (h : i < l.length) : (l.set i v).getD i d = v := by
  induction l generalizing i with
  | nil => simp at h
  | cons a t ih =>
    cases i with
    | zero => rfl
    | succ n =>
      simp only [List.set, List.getD, List.get?]
      exact ih n (by simpa using h)

/-- C9: whenever spdk_nvmf_request_prep_data returns PREP_ERROR, the
request's data pointer is NULL and its length is 0 (both are cleared at
entry and every error return precedes their reassignment), so an
error-path request holds no session chunk, the session free stack is
untouched, and the pool-release branch of send_completion (guarded by
length greater than the in-capsule data size) cannot be taken for it. -/
theorem c9_prep_error_clears_request (g : RdmaGlobals) (pool : List Nat)
    (req : NvmfRequest) :
    (spdk_nvmf_request_prep_data g pool req).result = PrepResult.error →
    (spdk_nvmf_request_prep_data g pool req).req.data = Option.none ∧
    (spdk_nvmf_request_prep_data g pool req).req.length = 0 ∧
    ¬ (spdk_nvmf_request_prep_data g pool req).req.length > g.in_capsule_data_size ∧
    (spdk_nvmf_request_prep_data g pool req).pool = pool := by
  simp only [spdk_nvmf_request_prep_data]
  repeat' split
  all_goals intro h
  all_goals simp_all

/-- Witness for C9 at a reserved SGL type: prep errors and the request
holds no data. -/
theorem c9_witness :
    (spdk_nvmf_request_prep_data gW [] (reqAt 1 cmdBadSgl)).result = PrepResult.error ∧
    ((spdk_nvmf_request_prep_data gW [] (reqAt 1 cmdBadSgl)).req.data = Option.none ∧
     (spdk_nvmf_request_prep_data gW [] (reqAt 1 cmdBadSgl)).req.length = 0 ∧
     ¬ (spdk_nvmf_request_prep_data gW [] (reqAt 1 cmdBadSgl)).req.length > gW.in_capsule_data_size ∧
     (spdk_nvmf_request_prep_data gW [] (reqAt 1 cmdBadSgl)).pool = []) :=
  ⟨by decide, c9_prep_error_clears_request gW [] (reqAt 1 cmdBadSgl) (by decide)⟩

set_option maxHeartbeats 2000000 in
/-- C3: for a command whose SGL descriptor 1 is a keyed data block with
subtype ADDRESS or INVALIDATE_KEY (and whose opcode implies a data
transfer, so prep reaches the SGL), prep returns PREP_ERROR with status
DATA_SGL_LENGTH_INVALID when the SGL length exceeds max_io_size;
returns PREP_READY with xfer forced to NONE when the SGL length is 0;
otherwise sets req->length to the SGL length, and when the length
exceeds in_capsule_data_size pops the head of the session free stack as
req->data (PREP_PENDING_BUFFER when the stack is empty), otherwise uses
the slot's in-capsule buffer; then host-to-controller transfers get
PREP_PENDING_DATA and every other direction gets PREP_READY. -/
theorem c3_prep_keyed_data_block (g : RdmaGlobals) (pool : List Nat)
    (req : NvmfRequest)
    (ht : req.cmd.sgl1.gtype = SPDK_NVME_SGL_TYPE_KEYED_DATA_BLOCK)
    (hsub : req.cmd.sgl1.subtype = SPDK_NVME_SGL_SUBTYPE_ADDRESS ∨
            req.cmd.sgl1.subtype = SPDK_NVME_SGL_SUBTYPE_INVALIDATE_KEY)
    (hx : prepComputedXfer req ≠ Xfer.dataNone) :
    (req.cmd.sgl1.keyedLength > g.max_io_size →
       (spdk_nvmf_request_prep_data g pool req).result = PrepResult.error ∧
       (spdk_nvmf_request_prep_data g pool req).req.rspSc =
         SPDK_NVME_SC_DATA_SGL_LENGTH_INVALID) ∧
    (req.cmd.sgl1.keyedLength = 0 →
       (spdk_nvmf_request_prep_data g pool req).result = PrepResult.ready ∧
       (spdk_nvmf_request_prep_data g pool req).req.xfer = Xfer.dataNone) ∧
    (0 < req.cmd.sgl1.keyedLength → req.cmd.sgl1.keyedLength ≤ g.max_io_size →
       (spdk_nvmf_request_prep_data g pool req).req.length = req.cmd.sgl1.keyedLength ∧
       (req.cmd.sgl1.keyedLength > g.in_capsule_data_size →
          (pool = [] →
             (spdk_nvmf_request_prep_data g pool req).result = PrepResult.pendingBuffer ∧
             (spdk_nvmf_request_prep_data g pool req).req.data = Option.none ∧
             (spdk_nvmf_request_prep_data g pool req).pool = pool) ∧
          (∀ c rest, pool = c :: rest →
             (spdk_nvmf_request_prep_data g pool req).req.data = some (DataPtr.chunk c) ∧
             (spdk_nvmf_request_prep_data g pool req).pool = rest ∧
             (prepComputedXfer req = Xfer.hostToController →
                (spdk_nvmf_request_prep_data g pool req).result = PrepResult.pendingData) ∧
             (prepComputedXfer req ≠ Xfer.hostToController →
                (spdk_nvmf_request_prep_data g pool req).result = PrepResult.ready))) ∧
       (req.cmd.sgl1.keyedLength ≤ g.in_capsule_data_size →
          (spdk_nvmf_request_prep_data g pool req).req.data =
            some (DataPtr.inCapsule req.slot 0) ∧
          (spdk_nvmf_request_prep_data g pool req).pool = pool ∧
          (prepComputedXfer req = Xfer.hostToController →
             (spdk_nvmf_request_prep_data g pool req).result = PrepResult.pendingData) ∧
          (prepComputedXfer req ≠ Xfer.hostToController →
             (spdk_nvmf_request_prep_data g pool req).result = PrepResult.ready))) := by
  have hx1 : ¬ prepComputedXfer req = Xfer.dataNone := hx
  simp only [spdk_nvmf_request_prep_data, prepComputedXfer] at hx1 ⊢
  refine ⟨fun hlen => ?_, fun h0 => ?_,
          fun hpos hle => ⟨?_, fun hbig => ⟨fun hpool => ?_, fun c rest hpool => ?_⟩,
                           fun hsmall => ?_⟩⟩ <;>
    (try subst hpool) <;>
    rcases hsub with hs | hs <;>
    repeat' split
  all_goals
    try simp_all [SPDK_NVME_SGL_TYPE_KEYED_DATA_BLOCK, SPDK_NVME_SGL_TYPE_DATA_BLOCK,
      SPDK_NVME_SGL_SUBTYPE_ADDRESS, SPDK_NVME_SGL_SUBTYPE_OFFSET,
      SPDK_NVME_SGL_SUBTYPE_INVALIDATE_KEY, SPDK_NVME_OPC_FABRIC]
  all_goals omega

/-- Witness for C3: a host-to-controller keyed command of 100 bytes
against a 4096-byte in-capsule size uses the in-capsule buffer and
returns PREP_PENDING_DATA. -/
theorem c3_witness :
    ((reqAt 0 cmdKeyedH2C).cmd.sgl1.gtype = SPDK_NVME_SGL_TYPE_KEYED_DATA_BLOCK ∧
     ((reqAt 0 cmdKeyedH2C).cmd.sgl1.subtype = SPDK_NVME_SGL_SUBTYPE_ADDRESS ∨
      (reqAt 0 cmdKeyedH2C).cmd.sgl1.subtype = SPDK_NVME_SGL_SUBTYPE_INVALIDATE_KEY) ∧
     prepComputedXfer (reqAt 0 cmdKeyedH2C) ≠ Xfer.dataNone) ∧
    (((reqAt 0 cmdKeyedH2C).cmd.sgl1.keyedLength > gW.max_io_size →
       (spdk_nvmf_request_prep_data gW [5] (reqAt 0 cmdKeyedH2C)).result = PrepResult.error ∧
       (spdk_nvmf_request_prep_data gW [5] (reqAt 0 cmdKeyedH2C)).req.rspSc =
         SPDK_NVME_SC_DATA_SGL_LENGTH_INVALID) ∧
    ((reqAt 0 cmdKeyedH2C).cmd.sgl1.keyedLength = 0 →
       (spdk_nvmf_request_prep_data gW [5] (reqAt 0 cmdKeyedH2C)).result = PrepResult.ready ∧
       (spdk_nvmf_request_prep_data gW [5] (reqAt 0 cmdKeyedH2C)).req.xfer = Xfer.dataNone) ∧
    (0 < (reqAt 0 cmdKeyedH2C).cmd.sgl1.keyedLength →
     (reqAt 0 cmdKeyedH2C).cmd.sgl1.keyedLength ≤ gW.max_io_size →
       (spdk_nvmf_request_prep_data gW [5] (reqAt 0 cmdKeyedH2C)).req.length =
         (reqAt 0 cmdKeyedH2C).cmd.sgl1.keyedLength ∧
       ((reqAt 0 cmdKeyedH2C).cmd.sgl1.keyedLength > gW.in_capsule_data_size →
          ([5] = ([] : List Nat) →
             (spdk_nvmf_request_prep_data gW [5] (reqAt 0 cmdKeyedH2C)).result = PrepResult.pendingBuffer ∧
             (spdk_nvmf_request_prep_data gW [5] (reqAt 0 cmdKeyedH2C)).req.data = Option.none ∧
             (spdk_nvmf_request_prep_data gW [5] (reqAt 0 cmdKeyedH2C)).pool = [5]) ∧
          (∀ c rest, [5] = c :: rest →
             (spdk_nvmf_request_prep_data gW [5] (reqAt 0 cmdKeyedH2C)).req.data = some (DataPtr.chunk c) ∧
             (spdk_nvmf_request_prep_data gW [5] (reqAt 0 cmdKeyedH2C)).pool = rest ∧
             (prepComputedXfer (reqAt 0 cmdKeyedH2C) = Xfer.hostToController →
                (spdk_nvmf_request_prep_data gW [5] (reqAt 0 cmdKeyedH2C)).result = PrepResult.pendingData) ∧
             (prepComputedXfer (reqAt 0 cmdKeyedH2C) ≠ Xfer.hostToController →
                (spdk_nvmf_request_prep_data gW [5] (reqAt 0 cmdKeyedH2C)).result = PrepResult.ready))) ∧
       ((reqAt 0 cmdKeyedH2C).cmd.sgl1.keyedLength ≤ gW.in_capsule_data_size →
          (spdk_nvmf_request_prep_data gW [5] (reqAt 0 cmdKeyedH2C)).req.data =
            some (DataPtr.inCapsule (reqAt 0 cmdKeyedH2C).slot 0) ∧
          (spdk_nvmf_request_prep_data gW [5] (reqAt 0 cmdKeyedH2C)).pool = [5] ∧
          (prepComputedXfer (reqAt 0 cmdKeyedH2C) = Xfer.hostToController →
             (spdk_nvmf_request_prep_data gW [5] (reqAt 0 cmdKeyedH2C)).result = PrepResult.pendingData) ∧
          (prepComputedXfer (reqAt 0 cmdKeyedH2C) ≠ Xfer.hostToController →
             (spdk_nvmf_request_prep_data gW [5] (reqAt 0 cmdKeyedH2C)).result = PrepResult.ready)))) :=
  ⟨by decide,
   c3_prep_keyed_data_block gW [5] (reqAt 0 cmdKeyedH2C) (by decide) (by decide) (by decide)⟩

set_option maxHeartbeats 2000000 in
/-- C8: for a command whose SGL descriptor 1 is a data block with
subtype OFFSET (and whose opcode implies a data transfer), prep returns
PREP_ERROR with INVALID_SGL_OFFSET when the address, read as an offset
into the in-capsule buffer, exceeds in_capsule_data_size; PREP_ERROR
with DATA_SGL_LENGTH_INVALID when the length exceeds
in_capsule_data_size minus the offset; PREP_READY with xfer forced to
NONE when the length is 0; otherwise PREP_READY with req->data the
in-capsule buffer at the offset and req->length the SGL length.  Any
descriptor of any other type or subtype combination yields PREP_ERROR
with SGL_DESCRIPTOR_TYPE_INVALID. -/
theorem c8_prep_in_capsule_offset (g : RdmaGlobals) (pool : List Nat)
    (req : NvmfRequest)
    (ht : req.cmd.sgl1.gtype = SPDK_NVME_SGL_TYPE_DATA_BLOCK)
    (hsub : req.cmd.sgl1.subtype = SPDK_NVME_SGL_SUBTYPE_OFFSET)
    (hx : prepComputedXfer req ≠ Xfer.dataNone) :
    (req.cmd.sgl1.address > g.in_capsule_data_size →
       (spdk_nvmf_request_prep_data g pool req).result = PrepResult.error ∧
       (spdk_nvmf_request_prep_data g pool req).req.rspSc = SPDK_NVME_SC_INVALID_SGL_OFFSET) ∧
    (req.cmd.sgl1.address ≤ g.in_capsule_data_size →
     req.cmd.sgl1.unkeyedLength > g.in_capsule_data_size - req.cmd.sgl1.address →
       (spdk_nvmf_request_prep_data g pool req).result = PrepResult.error ∧
       (spdk_nvmf_request_prep_data g pool req).req.rspSc =
         SPDK_NVME_SC_DATA_SGL_LENGTH_INVALID) ∧
    (req.cmd.sgl1.address ≤ g.in_capsule_data_size →
     req.cmd.sgl1.unkeyedLength ≤ g.in_capsule_data_size - req.cmd.sgl1.address →
     req.cmd.sgl1.unkeyedLength = 0 →
       (spdk_nvmf_request_prep_data g pool req).result = PrepResult.ready ∧
       (spdk_nvmf_request_prep_data g pool req).req.xfer = Xfer.dataNone) ∧
    (req.cmd.sgl1.address ≤ g.in_capsule_data_size →
     req.cmd.sgl1.unkeyedLength ≤ g.in_capsule_data_size - req.cmd.sgl1.address →
     0 < req.cmd.sgl1.unkeyedLength →
       (spdk_nvmf_request_prep_data g pool req).result = PrepResult.ready ∧
       (spdk_nvmf_request_prep_data g pool req).req.data =
         some (DataPtr.inCapsule req.slot req.cmd.sgl1.address) ∧
       (spdk_nvmf_request_prep_data g pool req).req.length = req.cmd.sgl1.unkeyedLength) ∧
    (∀ (pool2 : List Nat) (req2 : NvmfRequest),
       prepComputedXfer req2 ≠ Xfer.dataNone →
       ¬ (req2.cmd.sgl1.gtype = SPDK_NVME_SGL_TYPE_KEYED_DATA_BLOCK ∧
          (req2.cmd.sgl1.subtype = SPDK_NVME_SGL_SUBTYPE_ADDRESS ∨
           req2.cmd.sgl1.subtype = SPDK_NVME_SGL_SUBTYPE_INVALIDATE_KEY)) →
       ¬ (req2.cmd.sgl1.gtype = SPDK_NVME_SGL_TYPE_DATA_BLOCK ∧
          req2.cmd.sgl1.subtype = SPDK_NVME_SGL_SUBTYPE_OFFSET) →
       (spdk_nvmf_request_prep_data g pool2 req2).result = PrepResult.error ∧
       (spdk_nvmf_request_prep_data g pool2 req2).req.rspSc =
         SPDK_NVME_SC_SGL_DESCRIPTOR_TYPE_INVALID) := by
  have hx1 : ¬ prepComputedXfer req = Xfer.dataNone := hx
  simp only [spdk_nvmf_request_prep_data, prepComputedXfer] at hx1 ⊢
  refine ⟨fun hoff => ?_, fun hoff hlen => ?_, fun hoff hlen h0 => ?_,
          fun hoff hlen hpos => ?_, fun pool2 req2 hx2 hnk hno => ?_⟩ <;>
    repeat' split
  all_goals
    try simp_all [SPDK_NVME_SGL_TYPE_KEYED_DATA_BLOCK, SPDK_NVME_SGL_TYPE_DATA_BLOCK,
      SPDK_NVME_SGL_SUBTYPE_ADDRESS, SPDK_NVME_SGL_SUBTYPE_OFFSET,
      SPDK_NVME_SGL_SUBTYPE_INVALIDATE_KEY, SPDK_NVME_OPC_FABRIC]
  all_goals omega

/-- Witness for C8: an in-capsule offset descriptor (offset 8, 64
bytes) against a 4096-byte in-capsule size is READY with the data
pointer at the offset. -/
theorem c8_witness :
    ((reqAt 0 cmdOffsetSmall).cmd.sgl1.gtype = SPDK_NVME_SGL_TYPE_DATA_BLOCK ∧
     (reqAt 0 cmdOffsetSmall).cmd.sgl1.subtype = SPDK_NVME_SGL_SUBTYPE_OFFSET ∧
     prepComputedXfer (reqAt 0 cmdOffsetSmall) ≠ Xfer.dataNone) ∧
    (((reqAt 0 cmdOffsetSmall).cmd.sgl1.address > gW.in_capsule_data_size →
       (spdk_nvmf_request_prep_data gW [] (reqAt 0 cmdOffsetSmall)).result = PrepResult.error ∧
       (spdk_nvmf_request_prep_data gW [] (reqAt 0 cmdOffsetSmall)).req.rspSc =
         SPDK_NVME_SC_INVALID_SGL_OFFSET) ∧
    ((reqAt 0 cmdOffsetSmall).cmd.sgl1.address ≤ gW.in_capsule_data_size →
     (reqAt 0 cmdOffsetSmall).cmd.sgl1.unkeyedLength >
       gW.in_capsule_data_size - (reqAt 0 cmdOffsetSmall).cmd.sgl1.address →
       (spdk_nvmf_request_prep_data gW [] (reqAt 0 cmdOffsetSmall)).result = PrepResult.error ∧
       (spdk_nvmf_request_prep_data gW [] (reqAt 0 cmdOffsetSmall)).req.rspSc =
         SPDK_NVME_SC_DATA_SGL_LENGTH_INVALID) ∧
    ((reqAt 0 cmdOffsetSmall).cmd.sgl1.address ≤ gW.in_capsule_data_size →
     (reqAt 0 cmdOffsetSmall).cmd.sgl1.unkeyedLength ≤
       gW.in_capsule_data_size - (reqAt 0 cmdOffsetSmall).cmd.sgl1.address →
     (reqAt 0 cmdOffsetSmall).cmd.sgl1.unkeyedLength = 0 →
       (spdk_nvmf_request_prep_data gW [] (reqAt 0 cmdOffsetSmall)).result = PrepResult.ready ∧
       (spdk_nvmf_request_prep_data gW [] (reqAt 0 cmdOffsetSmall)).req.xfer = Xfer.dataNone) ∧
    ((reqAt 0 cmdOffsetSmall).cmd.sgl1.address ≤ gW.in_capsule_data_size →
     (reqAt 0 cmdOffsetSmall).cmd.sgl1.unkeyedLength ≤
       gW.in_capsule_data_size - (reqAt 0 cmdOffsetSmall).cmd.sgl1.address →
     0 < (reqAt 0 cmdOffsetSmall).cmd.sgl1.unkeyedLength →
       (spdk_nvmf_request_prep_data gW [] (reqAt 0 cmdOffsetSmall)).result = PrepResult.ready ∧
       (spdk_nvmf_request_prep_data gW [] (reqAt 0 cmdOffsetSmall)).req.data =
         some (DataPtr.inCapsule (reqAt 0 cmdOffsetSmall).slot
                 (reqAt 0 cmdOffsetSmall).cmd.sgl1.address) ∧
       (spdk_nvmf_request_prep_data gW [] (reqAt 0 cmdOffsetSmall)).req.length =
         (reqAt 0 cmdOffsetSmall).cmd.sgl1.unkeyedLength) ∧
    (∀ (pool2 : List Nat) (req2 : NvmfRequest),
       prepComputedXfer req2 ≠ Xfer.dataNone →
       ¬ (req2.cmd.sgl1.gtype = SPDK_NVME_SGL_TYPE_KEYED_DATA_BLOCK ∧
          (req2.cmd.sgl1.subtype = SPDK_NVME_SGL_SUBTYPE_ADDRESS ∨
           req2.cmd.sgl1.subtype = SPDK_NVME_SGL_SUBTYPE_INVALIDATE_KEY)) →
       ¬ (req2.cmd.sgl1.gtype = SPDK_NVME_SGL_TYPE_DATA_BLOCK ∧
          req2.cmd.sgl1.subtype = SPDK_NVME_SGL_SUBTYPE_OFFSET) →
       (spdk_nvmf_request_prep_data gW pool2 req2).result = PrepResult.error ∧
       (spdk_nvmf_request_prep_data gW pool2 req2).req.rspSc =
         SPDK_NVME_SC_SGL_DESCRIPTOR_TYPE_INVALID)) :=
  ⟨by decide,
   c8_prep_in_capsule_offset gW [] (reqAt 0 cmdOffsetSmall) (by decide) (by decide) (by decide)⟩

/-- C1: for a connect event whose device query succeeds, the negotiated
max_queue_depth is the minimum of the target default, the device's
max_qp_wr and, when host private data of at least the documented length
is present, the host's hrqsize and hsqsize; and the negotiated
max_rw_depth is the minimum of the target default, the device's
max_qp_rd_atom and the remote initiator_depth. -/
theorem c1_connect_negotiation (g : RdmaGlobals) (attr : IbvDeviceAttr)
    (param : RdmaConnParam) :
    (∀ pd, param.private_data = some pd →
       param.private_data_len ≥ sizeof_spdk_nvmf_rdma_request_private_data →
       (nvmf_rdma_connect_negotiate g attr param).fst =
         min (min g.max_queue_depth attr.max_qp_wr) (min pd.hrqsize pd.hsqsize)) ∧
    (param.private_data = Option.none →
       (nvmf_rdma_connect_negotiate g attr param).fst =
         min g.max_queue_depth attr.max_qp_wr) ∧
    (param.private_data_len < sizeof_spdk_nvmf_rdma_request_private_data →
       (nvmf_rdma_connect_negotiate g attr param).fst =
         min g.max_queue_depth attr.max_qp_wr) ∧
    (nvmf_rdma_connect_negotiate g attr param).snd =
      min (min g.max_queue_depth attr.max_qp_rd_atom) param.initiator_depth := by
  simp only [nvmf_rdma_connect_negotiate, nvmf_min]
  refine ⟨fun pd hpd hlen => ?_, fun hpd => ?_, fun hlen => ?_, ?_⟩
  · simp [hpd, hlen, min_assoc]
  · simp [hpd]
  · cases hp : param.private_data <;> simp [hp, Nat.not_le.mpr hlen]
  · trivial

/-- Witness for C1 with private data {hrqsize 5, hsqsize 3}, device
limits {max_qp_wr 64, max_qp_rd_atom 2} and initiator depth 3. -/
theorem c1_witness :
    (nvmf_rdma_connect_negotiate gW ⟨64, 2⟩ ⟨3, 0, some ⟨5, 3⟩, 32⟩).fst =
      min (min gW.max_queue_depth 64) (min 5 3) ∧
    (nvmf_rdma_connect_negotiate gW ⟨64, 2⟩ ⟨3, 0, some ⟨5, 3⟩, 32⟩).snd =
      min (min gW.max_queue_depth 2) 3 :=
  ⟨(c1_connect_negotiation gW ⟨64, 2⟩ ⟨3, 0, some ⟨5, 3⟩, 32⟩).1 ⟨5, 3⟩ rfl (by decide),
   (c1_connect_negotiation gW ⟨64, 2⟩ ⟨3, 0, some ⟨5, 3⟩, 32⟩).2.2.2⟩

/-- The guarded advance equals one modular step when sq_head is in
range. -/
theorem advance_sq_head_spec (conn : RdmaConn) (h : conn.sq_head ≤ conn.sq_head_max) :
    (advance_sq_head conn).sq_head = (conn.sq_head + 1) % (conn.sq_head_max + 1) := by
  unfold advance_sq_head
  by_cases he : conn.sq_head = conn.sq_head_max
  · simp [he, Nat.mod_self]
  · have hlt : conn.sq_head + 1 < conn.sq_head_max + 1 := by omega
    simp [he, Nat.mod_eq_of_lt hlt]

/-- advance_sq_head touches only sq_head. -/
theorem advance_sq_head_frame (conn : RdmaConn) :
    (advance_sq_head conn).sq_head_max = conn.sq_head_max ∧
    (advance_sq_head conn).cur_queue_depth = conn.cur_queue_depth ∧
    (advance_sq_head conn).cur_rdma_rw_depth = conn.cur_rdma_rw_depth ∧
    (advance_sq_head conn).max_queue_depth = conn.max_queue_depth ∧
    (advance_sq_head conn).max_rw_depth = conn.max_rw_depth ∧
    (advance_sq_head conn).pending_data_buf_queue = conn.pending_data_buf_queue ∧
    (advance_sq_head conn).pending_rdma_rw_queue = conn.pending_rdma_rw_queue ∧
    (advance_sq_head conn).reqs = conn.reqs ∧
    (advance_sq_head conn).sess = conn.sess ∧
    (advance_sq_head conn).bufs_lkey = conn.bufs_lkey := by
  unfold advance_sq_head
  split <;> simp

/-- send_completion advances sq_head exactly as advance_sq_head does and
keeps sq_head_max. -/
theorem send_completion_release_frame (g : RdmaGlobals) (conn : RdmaConn)
    (req : NvmfRequest) :
    (send_completion_release g conn req).fst.sq_head = conn.sq_head ∧
    (send_completion_release g conn req).fst.sq_head_max = conn.sq_head_max ∧
    (send_completion_release g conn req).fst.cur_queue_depth = conn.cur_queue_depth ∧
    (send_completion_release g conn req).fst.cur_rdma_rw_depth = conn.cur_rdma_rw_depth ∧
    (send_completion_release g conn req).fst.max_queue_depth = conn.max_queue_depth ∧
    (send_completion_release g conn req).fst.max_rw_depth = conn.max_rw_depth ∧
    (send_completion_release g conn req).fst.reqs = conn.reqs ∧
    (send_completion_release g conn req).fst.pending_data_buf_queue =
      conn.pending_data_buf_queue ∧
    (send_completion_release g conn req).fst.pending_rdma_rw_queue =
      conn.pending_rdma_rw_queue ∧
    (send_completion_release g conn req).fst.bufs_lkey = conn.bufs_lkey := by
  unfold send_completion_release
  repeat' split
  all_goals simp

/-- The advanced sq_head written out as an if-term. -/
theorem advance_sq_head_sq_eq (c : RdmaConn) :
    (advance_sq_head c).sq_head =
      if c.sq_head = c.sq_head_max then 0 else c.sq_head + 1 := by
  unfold advance_sq_head
  split <;> simp

/-- send_completion advances sq_head exactly as advance_sq_head does and
keeps sq_head_max. -/
theorem send_completion_sq_fields (g : RdmaGlobals) (st : TState) (slot : Nat) :
    (spdk_nvmf_rdma_request_send_completion g st slot).conn.sq_head =
      (advance_sq_head st.conn).sq_head ∧
    (spdk_nvmf_rdma_request_send_completion g st slot).conn.sq_head_max =
      st.conn.sq_head_max := by
  have hrel := send_completion_release_frame g st.conn (st.conn.reqs.getD slot default)
  have hadv := advance_sq_head_frame
    (send_completion_release g st.conn (st.conn.reqs.getD slot default)).fst
  simp only [spdk_nvmf_rdma_request_send_completion, advance_sq_head_sq_eq]
  constructor
  · rw [hrel.1, hrel.2.1]
  · rw [hadv.1, hrel.2.1]

/-- send_completion stamps the post-advance sq_head into the slot's
completion capsule. -/
theorem send_completion_stamps (g : RdmaGlobals) (st : TState) (slot : Nat)
    (h : slot < st.conn.reqs.length) :
    ((spdk_nvmf_rdma_request_send_completion g st slot).conn.reqs.getD slot
       default).rspSqhd =
      (spdk_nvmf_rdma_request_send_completion g st slot).conn.sq_head := by
  have hrel := send_completion_release_frame g st.conn (st.conn.reqs.getD slot default)
  have hadv := advance_sq_head_frame
    (send_completion_release g st.conn (st.conn.reqs.getD slot default)).fst
  have hlen : slot <
      (advance_sq_head
        (send_completion_release g st.conn (st.conn.reqs.getD slot default)).fst).reqs.length := by
    rw [hadv.2.2.2.2.2.2.2.1, hrel.2.2.2.2.2.2.1]
    exact h
  simp only [spdk_nvmf_rdma_request_send_completion]
  rw [list_getD_set_self _ _ _ _ hlen]

/-- ack_completion advances sq_head, decrements cur_queue_depth, and
changes nothing else. -/
theorem ack_completion_effects (st : TState) (slot : Nat) :
    (spdk_nvmf_rdma_request_ack_completion st slot).conn.sq_head =
      (advance_sq_head st.conn).sq_head ∧
    (spdk_nvmf_rdma_request_ack_completion st slot).conn.sq_head_max =
      st.conn.sq_head_max ∧
    (spdk_nvmf_rdma_request_ack_completion st slot).conn.cur_queue_depth =
      decr16 st.conn.cur_queue_depth ∧
    (spdk_nvmf_rdma_request_ack_completion st slot).conn.cur_rdma_rw_depth =
      st.conn.cur_rdma_rw_depth ∧
    (spdk_nvmf_rdma_request_ack_completion st slot).conn.max_queue_depth =
      st.conn.max_queue_depth ∧
    (spdk_nvmf_rdma_request_ack_completion st slot).conn.max_rw_depth =
      st.conn.max_rw_depth ∧
    (spdk_nvmf_rdma_request_ack_completion st slot).conn.reqs = st.conn.reqs ∧
    (spdk_nvmf_rdma_request_ack_completion st slot).conn.sess = st.conn.sess ∧
    (spdk_nvmf_rdma_request_ack_completion st slot).conn.pending_data_buf_queue =
      st.conn.pending_data_buf_queue ∧
    (spdk_nvmf_rdma_request_ack_completion st slot).conn.pending_rdma_rw_queue =
      st.conn.pending_rdma_rw_queue ∧
    (spdk_nvmf_rdma_request_ack_completion st slot).posts = st.posts ∧
    (spdk_nvmf_rdma_request_ack_completion st slot).execTrace = st.execTrace ∧
    (spdk_nvmf_rdma_request_ack_completion st slot).execResults = st.execResults := by
  have hadv := advance_sq_head_frame st.conn
  simp only [spdk_nvmf_rdma_request_ack_completion]
  simp [hadv.1, hadv.2.1, hadv.2.2.1, hadv.2.2.2.1, hadv.2.2.2.2.1, hadv.2.2.2.2.2.1,
        hadv.2.2.2.2.2.2.1, hadv.2.2.2.2.2.2.2.1, hadv.2.2.2.2.2.2.2.2.1]

/-- One full completion advances sq_head by two modular steps; iterated
k times from a state with sq_head in range it lands on
(sq_head + 2k) mod (sq_head_max + 1). -/
theorem full_completion_sq_iterate (g : RdmaGlobals) (slot : Nat) :
    ∀ (k : Nat) (st : TState), st.conn.sq_head ≤ st.conn.sq_head_max →
      ((rdma_full_completion g slot)^[k] st).conn.sq_head =
        (st.conn.sq_head + 2 * k) % (st.conn.sq_head_max + 1) ∧
      ((rdma_full_completion g slot)^[k] st).conn.sq_head_max =
        st.conn.sq_head_max := by
  intro k
  induction k with
  | zero =>
    intro st h
    simp [Nat.mod_eq_of_lt (by omega : st.conn.sq_head < st.conn.sq_head_max + 1)]
  | succ n ih =>
    intro st h
    have hsend := send_completion_sq_fields g st slot
    have hack := ack_completion_effects (spdk_nvmf_rdma_request_send_completion g st slot) slot
    have hadv := advance_sq_head_spec st.conn h
    have hone : (rdma_full_completion g slot st).conn.sq_head =
        (st.conn.sq_head + 1 + 1) % (st.conn.sq_head_max + 1) := by
      unfold rdma_full_completion
      rw [hack.1]
      have hle2 : (spdk_nvmf_rdma_request_send_completion g st slot).conn.sq_head ≤
          (spdk_nvmf_rdma_request_send_completion g st slot).conn.sq_head_max := by
        rw [hsend.1, hsend.2, hadv]
        exact Nat.le_of_lt_succ (Nat.mod_lt _ (by omega))
      rw [advance_sq_head_spec _ hle2, hsend.1, hsend.2, hadv, Nat.mod_add_mod]
    have hmax1 : (rdma_full_completion g slot st).conn.sq_head_max =
        st.conn.sq_head_max := by
      unfold rdma_full_completion
      rw [hack.2.1, hsend.2]
    have hle1 : (rdma_full_completion g slot st).conn.sq_head ≤
        (rdma_full_completion g slot st).conn.sq_head_max := by
      rw [hone, hmax1]
      exact Nat.le_of_lt_succ (Nat.mod_lt _ (by omega))
    have := ih (rdma_full_completion g slot st) hle1
    rw [Function.iterate_succ_apply]
    refine ⟨?_, ?_⟩
    · rw [this.1, hone, hmax1, Nat.mod_add_mod]
      congr 1
      omega
    · rw [this.2, hmax1]

/-- C4: with sq_head in range, the send_completion step advances
sq_head by one modular step (modulo sq_head_max + 1), stamps the
advanced value into the completion capsule's sqhd field, the
ack_completion step advances it by one more modular step, and after
exactly sq_head_max + 1 fully completed requests a connection that
started at sq_head 0 is back at sq_head 0. -/
theorem c4_sq_head_pipeline (g : RdmaGlobals) (st : TState) (slot : Nat)
    (h1 : st.conn.sq_head ≤ st.conn.sq_head_max)
    (h2 : slot < st.conn.reqs.length) :
    (spdk_nvmf_rdma_request_send_completion g st slot).conn.sq_head =
      (st.conn.sq_head + 1) % (st.conn.sq_head_max + 1) ∧
    ((spdk_nvmf_rdma_request_send_completion g st slot).conn.reqs.getD slot
       default).rspSqhd =
      (spdk_nvmf_rdma_request_send_completion g st slot).conn.sq_head ∧
    (spdk_nvmf_rdma_request_ack_completion
       (spdk_nvmf_rdma_request_send_completion g st slot) slot).conn.sq_head =
      ((spdk_nvmf_rdma_request_send_completion g st slot).conn.sq_head + 1) %
        (st.conn.sq_head_max + 1) ∧
    (∀ st0 : TState, st0.conn.sq_head = 0 →
       ((rdma_full_completion g slot)^[st0.conn.sq_head_max + 1] st0).conn.sq_head = 0) := by
  have hsend := send_completion_sq_fields g st slot
  have hadv := advance_sq_head_spec st.conn h1
  refine ⟨by rw [hsend.1, hadv], send_completion_stamps g st slot h2, ?_, ?_⟩
  · have hack := ack_completion_effects
      (spdk_nvmf_rdma_request_send_completion g st slot) slot
    have hle2 : (spdk_nvmf_rdma_request_send_completion g st slot).conn.sq_head ≤
        (spdk_nvmf_rdma_request_send_completion g st slot).conn.sq_head_max := by
      rw [hsend.1, hsend.2, hadv]
      exact Nat.le_of_lt_succ (Nat.mod_lt _ (by omega))
    rw [hack.1, advance_sq_head_spec _ hle2, hsend.2]
  · intro st0 h0
    have := (full_completion_sq_iterate g slot (st0.conn.sq_head_max + 1) st0 (by omega)).1
    rw [this, h0]
    simp [Nat.mul_mod_left]

/-- Witness for C4 at slot 1 of the concrete connection (sq_head 1,
sq_head_max 3). -/
theorem c4_witness :
    (stW.conn.sq_head ≤ stW.conn.sq_head_max ∧ 1 < stW.conn.reqs.length) ∧
    ((spdk_nvmf_rdma_request_send_completion gW stW 1).conn.sq_head =
       (stW.conn.sq_head + 1) % (stW.conn.sq_head_max + 1) ∧
     ((spdk_nvmf_rdma_request_send_completion gW stW 1).conn.reqs.getD 1
        default).rspSqhd =
       (spdk_nvmf_rdma_request_send_completion gW stW 1).conn.sq_head ∧
     (spdk_nvmf_rdma_request_ack_completion
        (spdk_nvmf_rdma_request_send_completion gW stW 1) 1).conn.sq_head =
       ((spdk_nvmf_rdma_request_send_completion gW stW 1).conn.sq_head + 1) %
         (stW.conn.sq_head_max + 1) ∧
     (∀ st0 : TState, st0.conn.sq_head = 0 →
        ((rdma_full_completion gW 1)^[st0.conn.sq_head_max + 1] st0).conn.sq_head = 0)) :=
  ⟨⟨by decide, by decide⟩, c4_sq_head_pipeline gW stW 1 (by decide) (by decide)⟩

/-- A uint16 decrement of a positive in-range value is plain
subtraction. -/
theorem decr16_eq (n : Nat) (h1 : 1 ≤ n) (h2 : n < 65536) : decr16 n = n - 1 := by
  unfold decr16
  have hsplit : n + 65535 = (n - 1) + 1 * 65536 := by omega
  rw [hsplit, Nat.add_mul_mod_self_right]
  exact Nat.mod_eq_of_lt (by omega)

/-- A uint16 increment below the bound is plain addition. -/
theorem incr16_eq (n : Nat) (h : n + 1 < 65536) : incr16 n = n + 1 := by
  unfold incr16
  exact Nat.mod_eq_of_lt h

/-- send_completion posts exactly the slot's RECV followed by the
completion SEND. -/
theorem send_completion_posts (g : RdmaGlobals) (st : TState) (slot : Nat) :
    (spdk_nvmf_rdma_request_send_completion g st slot).posts =
      st.posts ++ [PostEvent.recv slot, PostEvent.send slot] := by
  simp only [spdk_nvmf_rdma_request_send_completion]

/-- C10: req_release performs only the ack step: it advances sq_head by
one modular step and decrements cur_queue_depth by one, leaving the
request fields, the session free stack, both pending queues and
cur_rdma_rw_depth unchanged and posting nothing — unlike req_complete,
which (on its completion-send path) re-posts the slot's RECV and posts
the completion SEND. -/
theorem c10_request_release_frame (st : TState) (slot : Nat)
    (h1 : st.conn.sq_head ≤ st.conn.sq_head_max)
    (h2 : 1 ≤ st.conn.cur_queue_depth)
    (h3 : st.conn.cur_queue_depth < 65536) :
    (spdk_nvmf_rdma_request_release st slot).conn.sq_head =
      (st.conn.sq_head + 1) % (st.conn.sq_head_max + 1) ∧
    (spdk_nvmf_rdma_request_release st slot).conn.cur_queue_depth =
      st.conn.cur_queue_depth - 1 ∧
    (spdk_nvmf_rdma_request_release st slot).conn.reqs = st.conn.reqs ∧
    (spdk_nvmf_rdma_request_release st slot).conn.sess = st.conn.sess ∧
    (spdk_nvmf_rdma_request_release st slot).conn.pending_data_buf_queue =
      st.conn.pending_data_buf_queue ∧
    (spdk_nvmf_rdma_request_release st slot).conn.pending_rdma_rw_queue =
      st.conn.pending_rdma_rw_queue ∧
    (spdk_nvmf_rdma_request_release st slot).conn.cur_rdma_rw_depth =
      st.conn.cur_rdma_rw_depth ∧
    (spdk_nvmf_rdma_request_release st slot).posts = st.posts ∧
    (∀ g : RdmaGlobals,
       (st.conn.reqs.getD slot default).rspSc ≠ SPDK_NVME_SC_SUCCESS →
       (spdk_nvmf_rdma_request_complete g st slot).posts =
         st.posts ++ [PostEvent.recv slot, PostEvent.send slot]) := by
  have hack := ack_completion_effects st slot
  have hadv := advance_sq_head_spec st.conn h1
  simp only [spdk_nvmf_rdma_request_release]
  refine ⟨?_, ?_, hack.2.2.2.2.2.2.1, hack.2.2.2.2.2.2.2.1,
          hack.2.2.2.2.2.2.2.2.1, hack.2.2.2.2.2.2.2.2.2.1, hack.2.2.2.1,
          hack.2.2.2.2.2.2.2.2.2.2.1, ?_⟩
  · rw [hack.1, hadv]
  · rw [hack.2.2.1, decr16_eq _ h2 h3]
  · intro g hsc
    have hneg : ¬ ((st.conn.reqs.getD slot default).rspSc = SPDK_NVME_SC_SUCCESS ∧
        (st.conn.reqs.getD slot default).xfer = Xfer.controllerToHost) :=
      fun hc => hsc hc.1
    simp only [spdk_nvmf_rdma_request_complete, if_neg hneg]
    exact send_completion_posts g st slot

/-- Witness for C10 at slot 1 of the concrete state (cur_queue_depth 2,
slot 1's completion carries a non-success status after an error prep). -/
theorem c10_witness :
    (stW.conn.sq_head ≤ stW.conn.sq_head_max ∧ 1 ≤ stW.conn.cur_queue_depth ∧
     stW.conn.cur_queue_depth < 65536) ∧
    ((spdk_nvmf_rdma_request_release stW 1).conn.sq_head =
       (stW.conn.sq_head + 1) % (stW.conn.sq_head_max + 1) ∧
     (spdk_nvmf_rdma_request_release stW 1).conn.cur_queue_depth =
       stW.conn.cur_queue_depth - 1 ∧
     (spdk_nvmf_rdma_request_release stW 1).conn.reqs = stW.conn.reqs ∧
     (spdk_nvmf_rdma_request_release stW 1).conn.sess = stW.conn.sess ∧
     (spdk_nvmf_rdma_request_release stW 1).conn.pending_data_buf_queue =
       stW.conn.pending_data_buf_queue ∧
     (spdk_nvmf_rdma_request_release stW 1).conn.pending_rdma_rw_queue =
       stW.conn.pending_rdma_rw_queue ∧
     (spdk_nvmf_rdma_request_release stW 1).conn.cur_rdma_rw_depth =
       stW.conn.cur_rdma_rw_depth ∧
     (spdk_nvmf_rdma_request_release stW 1).posts = stW.posts ∧
     (∀ g : RdmaGlobals,
        (stW.conn.reqs.getD 1 default).rspSc ≠ SPDK_NVME_SC_SUCCESS →
        (spdk_nvmf_rdma_request_complete g stW 1).posts =
          stW.posts ++ [PostEvent.recv 1, PostEvent.send 1])) :=
  ⟨⟨by decide, by decide, by decide⟩,
   c10_request_release_frame stW 1 (by decide) (by decide) (by decide)⟩

/-- C6 counterexample: at stBidir slot 0 the request's xfer is not NONE
(it is BIDIRECTIONAL) and an RW credit is free, yet transfer_data posts
no RDMA WRITE and no RDMA READ — the posted-work log stays empty — while
still consuming an RW credit (and not queueing the request either),
contradicting the claim that every request with xfer not equal to NONE
gets a WRITE or READ posted when a credit is free. -/
theorem c6_counterexample :
    (stBidir.conn.reqs.getD 0 default).xfer ≠ Xfer.dataNone ∧
    stBidir.conn.cur_rdma_rw_depth < stBidir.conn.max_rw_depth ∧
    (spdk_nvmf_rdma_request_transfer_data gW stBidir 0).posts = [] ∧
    (spdk_nvmf_rdma_request_transfer_data gW stBidir 0).conn.cur_rdma_rw_depth = 1 ∧
    (spdk_nvmf_rdma_request_transfer_data gW stBidir 0).conn.pending_rdma_rw_queue = [] := by
  decide

/-- C6 as amended: for every request whose xfer is HOST_TO_CONTROLLER
or CONTROLLER_TO_HOST, transfer_data with a free RW credit posts a
single-SGE RDMA WRITE (controller to host) or RDMA READ (host to
controller) whose local key is the session pool's key when req->length
exceeds in_capsule_data_size and the in-capsule buffer's key otherwise,
and whose remote key and address come from the keyed SGL, then
increments cur_rdma_rw_depth by one; with cur_rdma_rw_depth equal to
max_rw_depth it instead appends the slot to pending_rdma_rw_queue and
leaves cur_rdma_rw_depth and the posted-work log unchanged. -/
theorem c6_transfer_data_amended (g : RdmaGlobals) (st : TState) (slot : Nat)
    (s : RdmaSession)
    (hsess : st.conn.sess = some s)
    (hxfer : (st.conn.reqs.getD slot default).xfer = Xfer.hostToController ∨
             (st.conn.reqs.getD slot default).xfer = Xfer.controllerToHost)
    (hmax : st.conn.max_rw_depth < 65536) :
    (st.conn.cur_rdma_rw_depth < st.conn.max_rw_depth →
       (spdk_nvmf_rdma_request_transfer_data g st slot).posts =
         st.posts ++
           [(if (st.conn.reqs.getD slot default).xfer = Xfer.controllerToHost then
               PostEvent.rdmaWrite else PostEvent.rdmaRead)
              (st.conn.reqs.getD slot default).slot
              (if (st.conn.reqs.getD slot default).length > g.in_capsule_data_size then
                 s.buf_lkey else st.conn.bufs_lkey)
              (st.conn.reqs.getD slot default).cmd.sgl1.keyedKey
              (st.conn.reqs.getD slot default).cmd.sgl1.address
              (st.conn.reqs.getD slot default).length 1] ∧
       (spdk_nvmf_rdma_request_transfer_data g st slot).conn.cur_rdma_rw_depth =
         st.conn.cur_rdma_rw_depth + 1 ∧
       (spdk_nvmf_rdma_request_transfer_data g st slot).conn.pending_rdma_rw_queue =
         st.conn.pending_rdma_rw_queue) ∧
    (st.conn.cur_rdma_rw_depth = st.conn.max_rw_depth →
       (spdk_nvmf_rdma_request_transfer_data g st slot).conn.pending_rdma_rw_queue =
         st.conn.pending_rdma_rw_queue ++ [slot] ∧
       (spdk_nvmf_rdma_request_transfer_data g st slot).conn.cur_rdma_rw_depth =
         st.conn.cur_rdma_rw_depth ∧
       (spdk_nvmf_rdma_request_transfer_data g st slot).posts = st.posts) := by
  constructor
  · intro hlt
    have hincr : incr16 st.conn.cur_rdma_rw_depth = st.conn.cur_rdma_rw_depth + 1 :=
      incr16_eq _ (by omega)
    rcases hxfer with hx | hx
    · have hne : ¬ (st.conn.reqs.getD slot default).xfer = Xfer.controllerToHost := by
        rw [hx]; simp
      simp only [List.getD, List.get?_eq_getElem?] at hx hne
      simp [spdk_nvmf_rdma_request_transfer_data, nvmf_post_rdma_read,
            sess_buf_lkey, hsess, hlt, hx, hne, hincr]
    · simp only [List.getD, List.get?_eq_getElem?] at hx
      simp [spdk_nvmf_rdma_request_transfer_data, nvmf_post_rdma_write,
            sess_buf_lkey, hsess, hlt, hx, hincr]
  · intro heq
    have hnlt : ¬ st.conn.cur_rdma_rw_depth < st.conn.max_rw_depth := by omega
    simp [spdk_nvmf_rdma_request_transfer_data, hnlt]

/-- Witness for the amended C6 at slot 1 (a small controller-to-host
request with a free credit): the WRITE is posted with the in-capsule
key. -/
theorem c6_witness :
    (stW.conn.sess = some { data_buf_pool := [21], buf_lkey := 9 } ∧
     ((stW.conn.reqs.getD 1 default).xfer = Xfer.hostToController ∨
      (stW.conn.reqs.getD 1 default).xfer = Xfer.controllerToHost) ∧
     stW.conn.max_rw_depth < 65536) ∧
    ((stW.conn.cur_rdma_rw_depth < stW.conn.max_rw_depth →
       (spdk_nvmf_rdma_request_transfer_data gW stW 1).posts =
         stW.posts ++
           [(if (stW.conn.reqs.getD 1 default).xfer = Xfer.controllerToHost then
               PostEvent.rdmaWrite else PostEvent.rdmaRead)
              (stW.conn.reqs.getD 1 default).slot
              (if (stW.conn.reqs.getD 1 default).length > gW.in_capsule_data_size then
                 RdmaSession.buf_lkey { data_buf_pool := [21], buf_lkey := 9 }
               else stW.conn.bufs_lkey)
              (stW.conn.reqs.getD 1 default).cmd.sgl1.keyedKey
              (stW.conn.reqs.getD 1 default).cmd.sgl1.address
              (stW.conn.reqs.getD 1 default).length 1] ∧
       (spdk_nvmf_rdma_request_transfer_data gW stW 1).conn.cur_rdma_rw_depth =
         stW.conn.cur_rdma_rw_depth + 1 ∧
       (spdk_nvmf_rdma_request_transfer_data gW stW 1).conn.pending_rdma_rw_queue =
         stW.conn.pending_rdma_rw_queue) ∧
     (stW.conn.cur_rdma_rw_depth = stW.conn.max_rw_depth →
       (spdk_nvmf_rdma_request_transfer_data gW stW 1).conn.pending_rdma_rw_queue =
         stW.conn.pending_rdma_rw_queue ++ [1] ∧
       (spdk_nvmf_rdma_request_transfer_data gW stW 1).conn.cur_rdma_rw_depth =
         stW.conn.cur_rdma_rw_depth ∧
       (spdk_nvmf_rdma_request_transfer_data gW stW 1).posts = stW.posts)) :=
  ⟨⟨by decide, by decide, by decide⟩,
   c6_transfer_data_amended gW stW 1 { data_buf_pool := [21], buf_lkey := 9 }
     (by decide) (by decide) (by decide)⟩

/-- C2 failing-input evaluation: polling two clean RECV completions —
slot 0 a no-transfer command whose backend call succeeds, slot 1 a
command with a reserved SGL type whose prep errors — makes
spdk_nvmf_rdma_poll return 0 although one successful backend invocation
was performed and no fatal connection error occurred (the return is not
negative).  The PREP_ERROR arm (rdma.c line 1412) returns
request_complete's value and discards the count, contradicting the
function's own comment (rdma.c lines 1251-1253). -/
theorem c2_poll_return_drops_count :
    (spdk_nvmf_rdma_poll gW [] [wcRecvAt 0, wcRecvAt 1] stBug).fst = 0 ∧
    successfulExecs (spdk_nvmf_rdma_poll gW [] [wcRecvAt 0, wcRecvAt 1] stBug).snd = 1 ∧
    0 ≤ (spdk_nvmf_rdma_poll gW [] [wcRecvAt 0, wcRecvAt 1] stBug).fst := by
  decide

/-- Setting an index away from the read one leaves getD unchanged. -/
theorem list_getD_set_ne {α : Type} (l : List α) (i j : Nat) (v d : α)
    (h : i ≠ j) : (l.set i v).getD j d = l.getD j d := by
  induction l generalizing i j with
  | nil => simp
  | cons a t ih =>
    cases i with
    | zero =>
      cases j with
      | zero => exact absurd rfl h
      | succ m => simp [List.getD]
    | succ n =>
      cases j with
      | zero => simp [List.getD]
      | succ m =>
        simp only [List.set, List.getD, List.get?]
        exact ih n m (by omega)

/-- Writing the value just read back into a state is the identity. -/
theorem setReq_getReq (st : TState) (slot : Nat) :
    setReq st slot (getReq st slot) = st := by
  simp only [setReq, getReq, list_set_getD]

/-- Reading a slot other than the one written is unchanged. -/
theorem getReq_setReq_ne (st : TState) (i j : Nat) (r : NvmfRequest)
    (h : i ≠ j) : getReq (setReq st i r) j = getReq st j := by
  simp only [getReq, setReq]
  exact list_getD_set_ne _ _ _ _ _ h

/-- transfer_data with a free credit leaves pending_rdma_rw_queue
unchanged. -/
theorem transfer_data_queue_of_lt (g : RdmaGlobals) (st : TState) (slot : Nat)
    (h : st.conn.cur_rdma_rw_depth < st.conn.max_rw_depth) :
    (spdk_nvmf_rdma_request_transfer_data g st slot).conn.pending_rdma_rw_queue =
      st.conn.pending_rdma_rw_queue := by
  simp only [spdk_nvmf_rdma_request_transfer_data, if_pos h]

/-- The credit-refill loop of the source, driven by fuel equal to the
queue length, is the spec's while loop. -/
theorem rw_loop_eq_spec (g : RdmaGlobals) :
    ∀ (q : List Nat) (st : TState), st.conn.pending_rdma_rw_queue = q →
      handle_pending_rw_loop g q.length st = drainSpecRwLoop g q st := by
  intro q
  induction q with
  | nil =>
    intro st hq
    simp [handle_pending_rw_loop, drainSpecRwLoop]
  | cons slot qrest ih =>
    intro st hq
    simp only [handle_pending_rw_loop, drainSpecRwLoop, List.length_cons]
    by_cases hlt : st.conn.cur_rdma_rw_depth < st.conn.max_rw_depth
    · rw [if_pos hlt, if_pos hlt, hq]
      apply ih
      rw [transfer_data_queue_of_lt]
      exact hlt
    · rw [if_neg hlt, if_neg hlt]

/-- The backend call never touches the connection. -/
theorem exec_conn (st : TState) : (spdk_nvmf_request_exec st).snd.conn = st.conn := by
  unfold spdk_nvmf_request_exec
  cases hE : st.execResults <;> simp

/-- Reading a slot is unchanged by the backend call. -/
theorem getReq_exec (st : TState) (sl : Nat) :
    getReq (spdk_nvmf_request_exec st).snd sl = getReq st sl := by
  simp only [getReq, exec_conn]

/-- Replacing the session pool does not change the request array. -/
theorem setSessPool_reqs (conn : RdmaConn) (p : List Nat) :
    (setSessPool conn p).reqs = conn.reqs := by
  unfold setSessPool
  cases conn.sess <;> rfl

/-- The chunk-assignment walk of the source, driven by fuel equal to
the queue length, is the spec's while loop (with the running count
threaded on the outside).  Requires the queue to hold distinct slots
whose data pointers are clear, which is the source's own assertion at
rdma.c line 1212. -/
theorem buf_loop_eq_spec (g : RdmaGlobals) :
    ∀ (q : List Nat) (st : TState) (count : Nat),
      st.conn.pending_data_buf_queue = q → q.Nodup →
      (∀ sl ∈ q, (getReq st sl).data = Option.none) →
      handle_pending_buf_loop g q.length st count =
        (match drainSpecBufLoop g q st with
         | (Option.none, st1) => (Option.none, st1)
         | (some k, st1) => (some (count + k), st1)) := by
  intro q
  induction q with
  | nil =>
    intro st count hq hnd hdata
    simp [handle_pending_buf_loop, drainSpecBufLoop]
  | cons slot qrest ih =>
    intro st count hq hnd hdata
    simp only [handle_pending_buf_loop, drainSpecBufLoop, List.length_cons]
    rw [hq]
    cases hp : sessPool st.conn with
    | nil =>
      have hd0 : (getReq st slot).data = Option.none := hdata slot (by simp)
      have hid : ({ getReq st slot with data := Option.none } : NvmfRequest) =
          getReq st slot := by
        cases hgr : getReq st slot
        simp_all
      simp only [hid, setReq_getReq, Nat.add_zero]
    | cons c pr =>
      have hslot : slot ∉ qrest := (List.nodup_cons.mp hnd).1
      have hnd2 : qrest.Nodup := (List.nodup_cons.mp hnd).2
      have hdata2 : ∀ sl ∈ qrest,
          (getReq (setReq st slot
            { getReq st slot with data := some (DataPtr.chunk c) }) sl).data =
            Option.none := by
        intro sl hsl
        have hne : slot ≠ sl := fun he => hslot (he ▸ hsl)
        rw [getReq_setReq_ne st slot sl _ hne]
        exact hdata sl (List.mem_cons_of_mem _ hsl)
      by_cases hxh : (getReq st slot).xfer = Xfer.hostToController
      · simp only [if_pos hxh]
        apply ih
        · rfl
        · exact hnd2
        · intro sl hsl
          have : getReq { setReq st slot
              { getReq st slot with data := some (DataPtr.chunk c) } with
              conn := { { setSessPool (setReq st slot
                  { getReq st slot with data := some (DataPtr.chunk c) }).conn pr with
                pending_data_buf_queue := qrest } with
                pending_rdma_rw_queue :=
                  { setSessPool (setReq st slot
                      { getReq st slot with data := some (DataPtr.chunk c) }).conn pr with
                    pending_data_buf_queue := qrest }.pending_rdma_rw_queue ++ [slot] } } sl =
              getReq (setReq st slot
                { getReq st slot with data := some (DataPtr.chunk c) }) sl := by
            simp only [getReq, setSessPool_reqs]
          rw [this]
          exact hdata2 sl hsl
      · simp only [if_neg hxh]
        by_cases hrc : (spdk_nvmf_request_exec
            { setReq st slot { getReq st slot with data := some (DataPtr.chunk c) } with
              conn := { setSessPool (setReq st slot
                  { getReq st slot with data := some (DataPtr.chunk c) }).conn pr with
                pending_data_buf_queue := qrest } }).fst < 0
        · simp only [if_pos hrc]
        · simp only [if_neg hrc]
          rw [ih]
          · cases hd : drainSpecBufLoop g qrest (spdk_nvmf_request_exec
                { setReq st slot { getReq st slot with data := some (DataPtr.chunk c) } with
                  conn := { setSessPool (setReq st slot
                      { getReq st slot with data := some (DataPtr.chunk c) }).conn pr with
                    pending_data_buf_queue := qrest } }).snd with
            | mk o st4 =>
              cases o with
              | none => simp
              | some k =>
                simp only []
                have harith : count + 1 + k = count + (k + 1) := by omega
                rw [harith]
          · rw [exec_conn]
          · exact hnd2
          · intro sl hsl
            rw [getReq_exec]
            have : getReq { setReq st slot
                { getReq st slot with data := some (DataPtr.chunk c) } with
                conn := { setSessPool (setReq st slot
                    { getReq st slot with data := some (DataPtr.chunk c) }).conn pr with
                  pending_data_buf_queue := qrest } } sl =
                getReq (setReq st slot
                  { getReq st slot with data := some (DataPtr.chunk c) }) sl := by
              simp only [getReq, setSessPool_reqs]
            rw [this]
            exact hdata2 sl hsl

/-- C7: with a session bound (and the queue holding distinct slots with
clear data pointers, the source's own assertion), handle_pending equals
the spec's two-loop drain: first assign free chunks to the
pending_data_buf_queue head, routing each to pending_rdma_rw_queue (host
to controller) or the backend, then pop pending_rdma_rw_queue while an
RW credit is free and call transfer_data. -/
theorem c7_drain_pending_matches_spec (g : RdmaGlobals) (st : TState)
    (s : RdmaSession)
    (hsess : st.conn.sess = some s)
    (hnd : st.conn.pending_data_buf_queue.Nodup)
    (hdata : ∀ sl ∈ st.conn.pending_data_buf_queue,
       (getReq st sl).data = Option.none) :
    spdk_nvmf_rdma_handle_pending_rdma_rw g st = drainSpec g st := by
  unfold spdk_nvmf_rdma_handle_pending_rdma_rw drainSpec
  have hs : st.conn.sess.isSome = true := by rw [hsess]; rfl
  rw [if_pos hs]
  rw [buf_loop_eq_spec g st.conn.pending_data_buf_queue st 0 rfl hnd hdata]
  cases hd : drainSpecBufLoop g st.conn.pending_data_buf_queue st with
  | mk o st1 =>
    cases o with
    | none => rfl
    | some k =>
      simp only [Nat.zero_add]
      rw [rw_loop_eq_spec g st1.conn.pending_rdma_rw_queue st1 rfl]

/-- Witness for C7 at the concrete state: slot 0 waits for a buffer,
the pool holds one chunk. -/
theorem c7_witness :
    (stW.conn.sess = some { data_buf_pool := [21], buf_lkey := 9 } ∧
     stW.conn.pending_data_buf_queue.Nodup ∧
     (∀ sl ∈ stW.conn.pending_data_buf_queue,
        (getReq stW sl).data = Option.none)) ∧
    spdk_nvmf_rdma_handle_pending_rdma_rw gW stW = drainSpec gW stW :=
  ⟨⟨by decide, by decide, by decide⟩,
   c7_drain_pending_matches_spec gW stW { data_buf_pool := [21], buf_lkey := 9 }
     (by decide) (by decide) (by decide)⟩

/-- Replacing the session pool does not change the depth fields. -/
theorem connDepths_setSessPool (conn : RdmaConn) (p : List Nat) :
    connDepths (setSessPool conn p) = connDepths conn := by
  unfold setSessPool
  cases conn.sess <;> rfl

/-- The backend call does not change the depth fields. -/
theorem countersOf_exec (st : TState) :
    countersOf (spdk_nvmf_request_exec st).snd = countersOf st := by
  unfold countersOf
  rw [exec_conn]

/-- Splitting a depth-field equality into the four fields. -/
theorem countersOf_eq_fields {s t : TState} (h : countersOf s = countersOf t) :
    s.conn.cur_queue_depth = t.conn.cur_queue_depth ∧
    s.conn.cur_rdma_rw_depth = t.conn.cur_rdma_rw_depth ∧
    s.conn.max_queue_depth = t.conn.max_queue_depth ∧
    s.conn.max_rw_depth = t.conn.max_rw_depth := by
  unfold countersOf connDepths at h
  refine ⟨congrArg (fun x => x.1) h, congrArg (fun x => x.2.1) h,
          congrArg (fun x => x.2.2.1) h, congrArg (fun x => x.2.2.2) h⟩

/-- transfer_data: the maxima and cur_queue_depth are untouched, and
cur_rdma_rw_depth never decreases and never exceeds max_rw_depth. -/
theorem transfer_data_depths (g : RdmaGlobals) (st : TState) (slot : Nat)
    (hmax : st.conn.max_rw_depth < 65536)
    (hle : st.conn.cur_rdma_rw_depth ≤ st.conn.max_rw_depth) :
    (spdk_nvmf_rdma_request_transfer_data g st slot).conn.max_queue_depth =
      st.conn.max_queue_depth ∧
    (spdk_nvmf_rdma_request_transfer_data g st slot).conn.max_rw_depth =
      st.conn.max_rw_depth ∧
    (spdk_nvmf_rdma_request_transfer_data g st slot).conn.cur_queue_depth =
      st.conn.cur_queue_depth ∧
    st.conn.cur_rdma_rw_depth ≤
      (spdk_nvmf_rdma_request_transfer_data g st slot).conn.cur_rdma_rw_depth ∧
    (spdk_nvmf_rdma_request_transfer_data g st slot).conn.cur_rdma_rw_depth ≤
      st.conn.max_rw_depth := by
  unfold spdk_nvmf_rdma_request_transfer_data
  by_cases hlt : st.conn.cur_rdma_rw_depth < st.conn.max_rw_depth
  · rw [if_pos hlt]
    refine ⟨rfl, rfl, rfl, ?_, ?_⟩ <;> dsimp only <;>
      rw [incr16_eq _ (by omega)] <;> omega
  · rw [if_neg hlt]
    exact ⟨rfl, rfl, rfl, Nat.le_refl _, hle⟩

/-- send_completion does not change any depth field. -/
theorem send_completion_counters (g : RdmaGlobals) (st : TState) (slot : Nat) :
    (spdk_nvmf_rdma_request_send_completion g st slot).conn.cur_queue_depth =
      st.conn.cur_queue_depth ∧
    (spdk_nvmf_rdma_request_send_completion g st slot).conn.cur_rdma_rw_depth =
      st.conn.cur_rdma_rw_depth ∧
    (spdk_nvmf_rdma_request_send_completion g st slot).conn.max_queue_depth =
      st.conn.max_queue_depth ∧
    (spdk_nvmf_rdma_request_send_completion g st slot).conn.max_rw_depth =
      st.conn.max_rw_depth := by
  have hrel := send_completion_release_frame g st.conn (st.conn.reqs.getD slot default)
  have hadv := advance_sq_head_frame
    (send_completion_release g st.conn (st.conn.reqs.getD slot default)).fst
  simp only [spdk_nvmf_rdma_request_send_completion]
  exact ⟨by rw [hadv.2.1, hrel.2.2.1], by rw [hadv.2.2.1, hrel.2.2.2.1],
         by rw [hadv.2.2.2.1, hrel.2.2.2.2.1], by rw [hadv.2.2.2.2.1, hrel.2.2.2.2.2.1]⟩

/-- The chunk-assignment walk does not change any depth field. -/
theorem buf_loop_counters (g : RdmaGlobals) :
    ∀ (fuel : Nat) (st : TState) (count : Nat),
      countersOf (handle_pending_buf_loop g fuel st count).snd = countersOf st := by
  intro fuel
  induction fuel with
  | zero => intro st count; rfl
  | succ n ih =>
    intro st count
    simp only [handle_pending_buf_loop]
    cases hq : st.conn.pending_data_buf_queue with
    | nil => rfl
    | cons slot qrest =>
      cases hp : sessPool st.conn with
      | nil => rfl
      | cons c pr =>
        by_cases hxh : (getReq st slot).xfer = Xfer.hostToController
        · simp only [if_pos hxh]
          rw [ih]
          exact connDepths_setSessPool _ _
        · simp only [if_neg hxh]
          by_cases hrc : (spdk_nvmf_request_exec
              { setReq st slot { getReq st slot with data := some (DataPtr.chunk c) } with
                conn := { setSessPool (setReq st slot
                    { getReq st slot with data := some (DataPtr.chunk c) }).conn pr with
                  pending_data_buf_queue := qrest } }).fst < 0
          · simp only [if_pos hrc]
            exact (countersOf_exec _).trans (connDepths_setSessPool _ _)
          · simp only [if_neg hrc]
            rw [ih]
            exact (countersOf_exec _).trans (connDepths_setSessPool _ _)

/-- The credit-refill loop: cur_queue_depth and the maxima are
untouched; cur_rdma_rw_depth never decreases and stays within
max_rw_depth. -/
theorem rw_loop_depths (g : RdmaGlobals) :
    ∀ (fuel : Nat) (st : TState),
      st.conn.max_rw_depth < 65536 →
      st.conn.cur_rdma_rw_depth ≤ st.conn.max_rw_depth →
      (handle_pending_rw_loop g fuel st).conn.cur_queue_depth =
        st.conn.cur_queue_depth ∧
      (handle_pending_rw_loop g fuel st).conn.max_queue_depth =
        st.conn.max_queue_depth ∧
      (handle_pending_rw_loop g fuel st).conn.max_rw_depth =
        st.conn.max_rw_depth ∧
      st.conn.cur_rdma_rw_depth ≤
        (handle_pending_rw_loop g fuel st).conn.cur_rdma_rw_depth ∧
      (handle_pending_rw_loop g fuel st).conn.cur_rdma_rw_depth ≤
        st.conn.max_rw_depth := by
  intro fuel
  induction fuel with
  | zero => intro st hmax hle; exact ⟨rfl, rfl, rfl, Nat.le_refl _, hle⟩
  | succ n ih =>
    intro st hmax hle
    unfold handle_pending_rw_loop
    by_cases hlt : st.conn.cur_rdma_rw_depth < st.conn.max_rw_depth
    · rw [if_pos hlt]
      cases hq : st.conn.pending_rdma_rw_queue with
      | nil => exact ⟨rfl, rfl, rfl, Nat.le_refl _, hle⟩
      | cons slot qrest =>
        dsimp only
        have hT := transfer_data_depths g
          { st with conn := { st.conn with pending_rdma_rw_queue := qrest } } slot
          hmax hle
        have hR := ih (spdk_nvmf_rdma_request_transfer_data g
          { st with conn := { st.conn with pending_rdma_rw_queue := qrest } } slot)
          (by rw [hT.2.1]; exact hmax) (by rw [hT.2.1]; exact hT.2.2.2.2)
        exact ⟨(hR.1).trans hT.2.2.1, (hR.2.1).trans hT.1, (hR.2.2.1).trans hT.2.1,
               Nat.le_trans hT.2.2.2.1 hR.2.2.2.1,
               Nat.le_trans hR.2.2.2.2 (Nat.le_of_eq hT.2.1)⟩
    · rw [if_neg hlt]
      exact ⟨rfl, rfl, rfl, Nat.le_refl _, hle⟩

/-- handle_pending: cur_queue_depth and the maxima are untouched (also
at a fatal exit); cur_rdma_rw_depth never decreases and stays within
max_rw_depth. -/
theorem handle_pending_depths (g : RdmaGlobals) (st : TState)
    (hmax : st.conn.max_rw_depth < 65536)
    (hle : st.conn.cur_rdma_rw_depth ≤ st.conn.max_rw_depth) :
    (spdk_nvmf_rdma_handle_pending_rdma_rw g st).snd.conn.cur_queue_depth =
      st.conn.cur_queue_depth ∧
    (spdk_nvmf_rdma_handle_pending_rdma_rw g st).snd.conn.max_queue_depth =
      st.conn.max_queue_depth ∧
    (spdk_nvmf_rdma_handle_pending_rdma_rw g st).snd.conn.max_rw_depth =
      st.conn.max_rw_depth ∧
    st.conn.cur_rdma_rw_depth ≤
      (spdk_nvmf_rdma_handle_pending_rdma_rw g st).snd.conn.cur_rdma_rw_depth ∧
    (spdk_nvmf_rdma_handle_pending_rdma_rw g st).snd.conn.cur_rdma_rw_depth ≤
      st.conn.max_rw_depth := by
  unfold spdk_nvmf_rdma_handle_pending_rdma_rw
  by_cases hs : st.conn.sess.isSome
  · rw [if_pos hs]
    have hB := countersOf_eq_fields
      (buf_loop_counters g st.conn.pending_data_buf_queue.length st 0)
    cases hL : handle_pending_buf_loop g st.conn.pending_data_buf_queue.length st 0 with
    | mk o st1 =>
      rw [hL] at hB
      cases o with
      | none => exact ⟨hB.1, hB.2.2.1, hB.2.2.2, by rw [hB.2.1], by rw [hB.2.1]; exact hle⟩
      | some k =>
        have hR := rw_loop_depths g st1.conn.pending_rdma_rw_queue.length st1
          (by rw [hB.2.2.2]; exact hmax) (by rw [hB.2.1, hB.2.2.2]; exact hle)
        exact ⟨(hR.1).trans hB.1, (hR.2.1).trans hB.2.2.1, (hR.2.2.1).trans hB.2.2.2,
               Nat.le_trans (Nat.le_of_eq hB.2.1.symm) hR.2.2.2.1,
               Nat.le_trans hR.2.2.2.2 (Nat.le_of_eq hB.2.2.2)⟩
  · rw [if_neg hs]
    have hR := rw_loop_depths g st.conn.pending_rdma_rw_queue.length st hmax hle
    exact ⟨hR.1, hR.2.1, hR.2.2.1, hR.2.2.2.1, hR.2.2.2.2⟩

/-- request_complete keeps cur_queue_depth and the maxima, and keeps
cur_rdma_rw_depth within max_rw_depth. -/
theorem request_complete_depths (g : RdmaGlobals) (st : TState) (slot : Nat)
    (hmax : st.conn.max_rw_depth < 65536)
    (hle : st.conn.cur_rdma_rw_depth ≤ st.conn.max_rw_depth) :
    (spdk_nvmf_rdma_request_complete g st slot).conn.cur_queue_depth =
      st.conn.cur_queue_depth ∧
    (spdk_nvmf_rdma_request_complete g st slot).conn.max_queue_depth =
      st.conn.max_queue_depth ∧
    (spdk_nvmf_rdma_request_complete g st slot).conn.max_rw_depth =
      st.conn.max_rw_depth ∧
    (spdk_nvmf_rdma_request_complete g st slot).conn.cur_rdma_rw_depth ≤
      st.conn.max_rw_depth := by
  unfold spdk_nvmf_rdma_request_complete
  dsimp only
  split
  · have hT := transfer_data_depths g st slot hmax hle
    exact ⟨hT.2.2.1, hT.1, hT.2.1, hT.2.2.2.2⟩
  · have hS := send_completion_counters g st slot
    exact ⟨hS.1, hS.2.2.1, hS.2.2.2, by rw [hS.2.1]; exact hle⟩

set_option maxRecDepth 8192 in
/-- Releasing one RW credit (the poller's decrement on a READ or WRITE
work completion) and then draining keeps cur_queue_depth and the maxima,
loses at most the one credit, and stays within max_rw_depth. -/
theorem drain_after_decrement (g : RdmaGlobals) (st' : TState)
    (h2 : st'.conn.cur_rdma_rw_depth ≤ st'.conn.max_rw_depth)
    (h4 : st'.conn.max_rw_depth < 65536)
    (h5 : 1 ≤ st'.conn.cur_rdma_rw_depth)
    (h6 : st'.conn.cur_rdma_rw_depth < 65536) :
    (spdk_nvmf_rdma_handle_pending_rdma_rw g
       { st' with conn := { st'.conn with
           cur_rdma_rw_depth := decr16 st'.conn.cur_rdma_rw_depth } }).snd.conn.cur_queue_depth =
      st'.conn.cur_queue_depth ∧
    (spdk_nvmf_rdma_handle_pending_rdma_rw g
       { st' with conn := { st'.conn with
           cur_rdma_rw_depth := decr16 st'.conn.cur_rdma_rw_depth } }).snd.conn.max_queue_depth =
      st'.conn.max_queue_depth ∧
    (spdk_nvmf_rdma_handle_pending_rdma_rw g
       { st' with conn := { st'.conn with
           cur_rdma_rw_depth := decr16 st'.conn.cur_rdma_rw_depth } }).snd.conn.max_rw_depth =
      st'.conn.max_rw_depth ∧
    st'.conn.cur_rdma_rw_depth - 1 ≤
      (spdk_nvmf_rdma_handle_pending_rdma_rw g
         { st' with conn := { st'.conn with
             cur_rdma_rw_depth := decr16 st'.conn.cur_rdma_rw_depth } }).snd.conn.cur_rdma_rw_depth ∧
    (spdk_nvmf_rdma_handle_pending_rdma_rw g
       { st' with conn := { st'.conn with
           cur_rdma_rw_depth := decr16 st'.conn.cur_rdma_rw_depth } }).snd.conn.cur_rdma_rw_depth ≤
      st'.conn.max_rw_depth := by
  have hdec : decr16 st'.conn.cur_rdma_rw_depth = st'.conn.cur_rdma_rw_depth - 1 :=
    decr16_eq _ h5 h6
  have hD := handle_pending_depths g
    { st' with conn := { st'.conn with
        cur_rdma_rw_depth := decr16 st'.conn.cur_rdma_rw_depth } }
    (show st'.conn.max_rw_depth < 65536 from h4)
    (show decr16 st'.conn.cur_rdma_rw_depth ≤ st'.conn.max_rw_depth by
      rw [hdec]; omega)
  refine ⟨hD.1, hD.2.1, hD.2.2.1, ?_, hD.2.2.2.2⟩
  have ha : decr16 st'.conn.cur_rdma_rw_depth ≤
      (spdk_nvmf_rdma_handle_pending_rdma_rw g
        { st' with conn := { st'.conn with
            cur_rdma_rw_depth := decr16 st'.conn.cur_rdma_rw_depth } }).snd.conn.cur_rdma_rw_depth :=
    hD.2.2.2.1
  omega

set_option maxRecDepth 8192 in
/-- The send-CQ phase preserves both depth bounds, provided each SEND
completion answers a counted request and each READ/WRITE completion
answers a posted RDMA operation (the environment assumptions: at most
cur_queue_depth SENDs and at most cur_rdma_rw_depth READ/WRITEs are in
flight). -/
theorem pollSendLoop_inv (g : RdmaGlobals) :
    ∀ (wcs : List Wc) (st : TState) (count : Nat),
      st.conn.cur_queue_depth ≤ st.conn.max_queue_depth →
      st.conn.cur_rdma_rw_depth ≤ st.conn.max_rw_depth →
      st.conn.max_queue_depth < 65536 →
      st.conn.max_rw_depth < 65536 →
      countSendWcs wcs ≤ st.conn.cur_queue_depth →
      countRwWcs wcs ≤ st.conn.cur_rdma_rw_depth →
      ((pollSendLoop g wcs st count).snd.conn.cur_queue_depth ≤
         (pollSendLoop g wcs st count).snd.conn.max_queue_depth ∧
       (pollSendLoop g wcs st count).snd.conn.cur_rdma_rw_depth ≤
         (pollSendLoop g wcs st count).snd.conn.max_rw_depth ∧
       (pollSendLoop g wcs st count).snd.conn.max_queue_depth < 65536 ∧
       (pollSendLoop g wcs st count).snd.conn.max_rw_depth < 65536) := by
  intro wcs
  induction wcs with
  | nil => intro st count h1 h2 h3 h4 h5 h6; exact ⟨h1, h2, h3, h4⟩
  | cons wc rest ih =>
    intro st count h1 h2 h3 h4 h5 h6
    unfold pollSendLoop
    by_cases hst : wc.status ≠ 0
    · rw [if_pos hst]
      exact ⟨h1, h2, h3, h4⟩
    · rw [if_neg hst]
      cases hw : wc.wrId with
      | none => exact ⟨h1, h2, h3, h4⟩
      | some slot =>
        dsimp only
        cases hop : wc.opcode with
        | send =>
          dsimp only
          have hcs : countSendWcs (wc :: rest) = countSendWcs rest + 1 := by
            simp [countSendWcs, List.countP_cons, hop]
          have hcr : countRwWcs (wc :: rest) = countRwWcs rest := by
            simp [countRwWcs, List.countP_cons, hop]
          have hack := ack_completion_effects st slot
          have hdec : decr16 st.conn.cur_queue_depth = st.conn.cur_queue_depth - 1 :=
            decr16_eq _ (by omega) (by omega)
          apply ih
          · rw [hack.2.2.1, hack.2.2.2.2.1, hdec]; omega
          · rw [hack.2.2.2.1, hack.2.2.2.2.2.1]; exact h2
          · rw [hack.2.2.2.2.1]; exact h3
          · rw [hack.2.2.2.2.2.1]; exact h4
          · rw [hack.2.2.1, hdec]; omega
          · rw [hack.2.2.2.1]; omega
        | rdmaWrite =>
          dsimp only
          have hcs : countSendWcs (wc :: rest) = countSendWcs rest := by
            simp [countSendWcs, List.countP_cons, hop]
          have hcr : countRwWcs (wc :: rest) = countRwWcs rest + 1 := by
            simp [countRwWcs, List.countP_cons, hop]
          obtain ⟨hS1, hS2, hS3, hS4⟩ := send_completion_counters g st slot
          have hDD := drain_after_decrement g
            (spdk_nvmf_rdma_request_send_completion g st slot)
            (by rw [hS2, hS4]; exact h2)
            (by rw [hS4]; exact h4)
            (by rw [hS2]; omega)
            (by rw [hS2]; omega)
          cases hH : spdk_nvmf_rdma_handle_pending_rdma_rw g
              { spdk_nvmf_rdma_request_send_completion g st slot with
                conn := { (spdk_nvmf_rdma_request_send_completion g st slot).conn with
                  cur_rdma_rw_depth := decr16
                    (spdk_nvmf_rdma_request_send_completion g st slot).conn.cur_rdma_rw_depth } } with
          | mk o st3 =>
            rw [hH] at hDD
            have e1 : st3.conn.cur_queue_depth =
                (spdk_nvmf_rdma_request_send_completion g st slot).conn.cur_queue_depth := hDD.1
            have e2 : st3.conn.max_queue_depth =
                (spdk_nvmf_rdma_request_send_completion g st slot).conn.max_queue_depth := hDD.2.1
            have e3 : st3.conn.max_rw_depth =
                (spdk_nvmf_rdma_request_send_completion g st slot).conn.max_rw_depth := hDD.2.2.1
            have e4 : (spdk_nvmf_rdma_request_send_completion g st slot).conn.cur_rdma_rw_depth - 1 ≤
                st3.conn.cur_rdma_rw_depth := hDD.2.2.2.1
            have e5 : st3.conn.cur_rdma_rw_depth ≤
                (spdk_nvmf_rdma_request_send_completion g st slot).conn.max_rw_depth := hDD.2.2.2.2
            cases o with
            | none =>
              dsimp only
              exact ⟨by omega, by omega, by omega, by omega⟩
            | some c =>
              dsimp only
              apply ih <;> omega
        | rdmaRead =>
          dsimp only
          have hcs : countSendWcs (wc :: rest) = countSendWcs rest := by
            simp [countSendWcs, List.countP_cons, hop]
          have hcr : countRwWcs (wc :: rest) = countRwWcs rest + 1 := by
            simp [countRwWcs, List.countP_cons, hop]
          obtain ⟨hE1, hE2, hE3, hE4⟩ := countersOf_eq_fields (countersOf_exec st)
          by_cases hrc : (spdk_nvmf_request_exec st).fst ≠ 0
          · rw [if_pos hrc]
            dsimp only
            exact ⟨by omega, by omega, by omega, by omega⟩
          · rw [if_neg hrc]
            have hDD := drain_after_decrement g (spdk_nvmf_request_exec st).snd
              (by rw [hE2, hE4]; exact h2)
              (by rw [hE4]; exact h4)
              (by rw [hE2]; omega)
              (by rw [hE2]; omega)
            cases hH : spdk_nvmf_rdma_handle_pending_rdma_rw g
                { (spdk_nvmf_request_exec st).snd with
                  conn := { (spdk_nvmf_request_exec st).snd.conn with
                    cur_rdma_rw_depth := decr16
                      (spdk_nvmf_request_exec st).snd.conn.cur_rdma_rw_depth } } with
            | mk o st3 =>
              rw [hH] at hDD
              have e1 : st3.conn.cur_queue_depth =
                  (spdk_nvmf_request_exec st).snd.conn.cur_queue_depth := hDD.1
              have e2 : st3.conn.max_queue_depth =
                  (spdk_nvmf_request_exec st).snd.conn.max_queue_depth := hDD.2.1
              have e3 : st3.conn.max_rw_depth =
                  (spdk_nvmf_request_exec st).snd.conn.max_rw_depth := hDD.2.2.1
              have e4 : (spdk_nvmf_request_exec st).snd.conn.cur_rdma_rw_depth - 1 ≤
                  st3.conn.cur_rdma_rw_depth := hDD.2.2.2.1
              have e5 : st3.conn.cur_rdma_rw_depth ≤
                  (spdk_nvmf_request_exec st).snd.conn.max_rw_depth := hDD.2.2.2.2
              cases o with
              | none =>
                dsimp only
                exact ⟨by omega, by omega, by omega, by omega⟩
              | some c =>
                dsimp only
                apply ih <;> omega
        | recv => exact ⟨h1, h2, h3, h4⟩
        | other => exact ⟨h1, h2, h3, h4⟩

/-- Field versions of connDepths_setSessPool. -/
theorem setSessPool_cur_queue_depth (conn : RdmaConn) (p : List Nat) :
    (setSessPool conn p).cur_queue_depth = conn.cur_queue_depth := by
  unfold setSessPool
  cases conn.sess <;> rfl

/-- setSessPool keeps cur_rdma_rw_depth. -/
theorem setSessPool_cur_rdma_rw_depth (conn : RdmaConn) (p : List Nat) :
    (setSessPool conn p).cur_rdma_rw_depth = conn.cur_rdma_rw_depth := by
  unfold setSessPool
  cases conn.sess <;> rfl

/-- setSessPool keeps max_queue_depth. -/
theorem setSessPool_max_queue_depth (conn : RdmaConn) (p : List Nat) :
    (setSessPool conn p).max_queue_depth = conn.max_queue_depth := by
  unfold setSessPool
  cases conn.sess <;> rfl

/-- setSessPool keeps max_rw_depth. -/
theorem setSessPool_max_rw_depth (conn : RdmaConn) (p : List Nat) :
    (setSessPool conn p).max_rw_depth = conn.max_rw_depth := by
  unfold setSessPool
  cases conn.sess <;> rfl

/-- The backend call keeps the depth bounds. -/
theorem exec_bounds (st : TState) (h : DepthBounds st) :
    DepthBounds (spdk_nvmf_request_exec st).snd := by
  obtain ⟨hE1, hE2, hE3, hE4⟩ := countersOf_eq_fields (countersOf_exec st)
  unfold DepthBounds at *
  omega

/-- transfer_data keeps the depth bounds. -/
theorem transfer_bounds (g : RdmaGlobals) (st : TState) (slot : Nat)
    (h : DepthBounds st) :
    DepthBounds (spdk_nvmf_rdma_request_transfer_data g st slot) := by
  obtain ⟨h1, h2, h3, h4⟩ := h
  obtain ⟨t1, t2, t3, t4, t5⟩ := transfer_data_depths g st slot h4 h2
  unfold DepthBounds
  omega

/-- request_complete keeps the depth bounds. -/
theorem complete_bounds (g : RdmaGlobals) (st : TState) (slot : Nat)
    (h : DepthBounds st) :
    DepthBounds (spdk_nvmf_rdma_request_complete g st slot) := by
  obtain ⟨h1, h2, h3, h4⟩ := h
  obtain ⟨c1, c2, c3, c4⟩ := request_complete_depths g st slot h4 h2
  unfold DepthBounds
  omega

/-- A state whose depth fields are those of a bounded state after one
guarded queue-depth increment is itself bounded. -/
theorem depthBounds_of_fields {s t : TState}
    (hb : DepthBounds s)
    (hlt : s.conn.cur_queue_depth < s.conn.max_queue_depth)
    (hq : t.conn.cur_queue_depth = incr16 s.conn.cur_queue_depth)
    (hr : t.conn.cur_rdma_rw_depth = s.conn.cur_rdma_rw_depth)
    (hmq : t.conn.max_queue_depth = s.conn.max_queue_depth)
    (hmr : t.conn.max_rw_depth = s.conn.max_rw_depth) : DepthBounds t := by
  obtain ⟨h1, h2, h3, h4⟩ := hb
  have hplus : incr16 s.conn.cur_queue_depth = s.conn.cur_queue_depth + 1 :=
    incr16_eq _ (by omega)
  unfold DepthBounds
  omega

set_option maxRecDepth 8192 in
/-- The recv-CQ phase preserves both depth bounds: the guard admits a
new request only below max_queue_depth, and every dispatch arm (backend
execution, buffer wait, data transfer, error completion) keeps the
bounds. -/
theorem pollRecvLoop_inv (g : RdmaGlobals) :
    ∀ (wcs : List Wc) (st : TState) (count : Nat),
      DepthBounds st → DepthBounds (pollRecvLoop g wcs st count).snd := by
  intro wcs
  induction wcs with
  | nil => intro st count h; exact h
  | cons wc rest ih =>
    intro st count h
    unfold pollRecvLoop
    by_cases hg : ¬ st.conn.cur_queue_depth < st.conn.max_queue_depth
    · rw [if_pos hg]; exact h
    · rw [if_neg hg]
      have hlt : st.conn.cur_queue_depth < st.conn.max_queue_depth := not_not.mp hg
      by_cases hstx : wc.status ≠ 0
      · rw [if_pos hstx]; exact h
      · rw [if_neg hstx]
        cases hw : wc.wrId with
        | none => exact h
        | some slot =>
          dsimp only
          cases hop : wc.opcode with
          | recv =>
            dsimp only
            by_cases hbl : wc.byte_len < sizeof_spdk_nvmf_capsule_cmd
            · rw [if_pos hbl]; exact h
            · rw [if_neg hbl]
              split
              · split
                · dsimp only
                  exact exec_bounds _ (depthBounds_of_fields h hlt
                    (setSessPool_cur_queue_depth _ _) (setSessPool_cur_rdma_rw_depth _ _)
                    (setSessPool_max_queue_depth _ _) (setSessPool_max_rw_depth _ _))
                · apply ih
                  exact exec_bounds _ (depthBounds_of_fields h hlt
                    (setSessPool_cur_queue_depth _ _) (setSessPool_cur_rdma_rw_depth _ _)
                    (setSessPool_max_queue_depth _ _) (setSessPool_max_rw_depth _ _))
              · apply ih
                exact depthBounds_of_fields h hlt
                  (setSessPool_cur_queue_depth _ _) (setSessPool_cur_rdma_rw_depth _ _)
                  (setSessPool_max_queue_depth _ _) (setSessPool_max_rw_depth _ _)
              · apply ih
                exact transfer_bounds g _ slot (depthBounds_of_fields h hlt
                  (setSessPool_cur_queue_depth _ _) (setSessPool_cur_rdma_rw_depth _ _)
                  (setSessPool_max_queue_depth _ _) (setSessPool_max_rw_depth _ _))
              · dsimp only
                exact complete_bounds g _ slot (depthBounds_of_fields h hlt
                  (setSessPool_cur_queue_depth _ _) (setSessPool_cur_rdma_rw_depth _ _)
                  (setSessPool_max_queue_depth _ _) (setSessPool_max_rw_depth _ _))
          | send => exact h
          | rdmaWrite => exact h
          | rdmaRead => exact h
          | other => exact h

/-- C5: spdk_nvmf_rdma_poll preserves both depth invariants,
0 ≤ cur_queue_depth ≤ max_queue_depth and
0 ≤ cur_rdma_rw_depth ≤ max_rw_depth (the lower bounds are inherent to
the Nat embedding of the uint16 counters): cur_queue_depth rises only
in the recv-CQ loop under its cur_queue_depth < max_queue_depth guard
and falls only in ack_completion for a counted request (hypothesis h5:
at most cur_queue_depth SEND completions arrive); cur_rdma_rw_depth
rises only in transfer_data under its cur_rdma_rw_depth < max_rw_depth
guard and falls only at a READ or WRITE work completion for a
previously posted operation (hypothesis h6).  The maxima are uint16
values (h3, h4). -/
theorem c5_depth_bounds (g : RdmaGlobals) (sendWcs recvWcs : List Wc)
    (st : TState)
    (h1 : st.conn.cur_queue_depth ≤ st.conn.max_queue_depth)
    (h2 : st.conn.cur_rdma_rw_depth ≤ st.conn.max_rw_depth)
    (h3 : st.conn.max_queue_depth < 65536)
    (h4 : st.conn.max_rw_depth < 65536)
    (h5 : countSendWcs sendWcs ≤ st.conn.cur_queue_depth)
    (h6 : countRwWcs sendWcs ≤ st.conn.cur_rdma_rw_depth) :
    (spdk_nvmf_rdma_poll g sendWcs recvWcs st).snd.conn.cur_queue_depth ≤
      (spdk_nvmf_rdma_poll g sendWcs recvWcs st).snd.conn.max_queue_depth ∧
    (spdk_nvmf_rdma_poll g sendWcs recvWcs st).snd.conn.cur_rdma_rw_depth ≤
      (spdk_nvmf_rdma_poll g sendWcs recvWcs st).snd.conn.max_rw_depth := by
  unfold spdk_nvmf_rdma_poll
  have hs := pollSendLoop_inv g sendWcs st 0 h1 h2 h3 h4 h5 h6
  by_cases hneg : (pollSendLoop g sendWcs st 0).fst < 0
  · rw [if_pos hneg]
    exact ⟨hs.1, hs.2.1⟩
  · rw [if_neg hneg]
    have hr := pollRecvLoop_inv g recvWcs (pollSendLoop g sendWcs st 0).snd
      (pollSendLoop g sendWcs st 0).fst.toNat ⟨hs.1, hs.2.1, hs.2.2.1, hs.2.2.2⟩
    exact ⟨hr.1, hr.2.1⟩

/-- Witness for C5 at the concrete state: one SEND completion (for the
counted slot 1) and one RECV completion arrive. -/
theorem c5_witness :
    (stW.conn.cur_queue_depth ≤ stW.conn.max_queue_depth ∧
     stW.conn.cur_rdma_rw_depth ≤ stW.conn.max_rw_depth ∧
     stW.conn.max_queue_depth < 65536 ∧
     stW.conn.max_rw_depth < 65536 ∧
     countSendWcs [wcSendAt 1] ≤ stW.conn.cur_queue_depth ∧
     countRwWcs [wcSendAt 1] ≤ stW.conn.cur_rdma_rw_depth) ∧
    ((spdk_nvmf_rdma_poll gW [wcSendAt 1] [wcRecvAt 0] stW).snd.conn.cur_queue_depth ≤
       (spdk_nvmf_rdma_poll gW [wcSendAt 1] [wcRecvAt 0] stW).snd.conn.max_queue_depth ∧
     (spdk_nvmf_rdma_poll gW [wcSendAt 1] [wcRecvAt 0] stW).snd.conn.cur_rdma_rw_depth ≤
       (spdk_nvmf_rdma_poll gW [wcSendAt 1] [wcRecvAt 0] stW).snd.conn.max_rw_depth) :=
  ⟨⟨by decide, by decide, by decide, by decide, by decide, by decide⟩,
   c5_depth_bounds gW [wcSendAt 1] [wcRecvAt 0] stW (by decide) (by decide)
     (by decide) (by decide) (by decide) (by decide)⟩
